import Mathlib

/-!
# Verification of the nise report-synthesis pipeline

Shallow embedding of the Python sources under `nise/` (report.py,
generators/generator.py, generators/aws/aws_generator.py,
generators/aws/s3_generator.py), together with proofs settling the
frozen claims about the month segmenter, timeline builder, row
template engine, S3 resource generator, finalizer, and the temp-file
lifecycle of the delivery blocks.

Python `datetime.datetime` values are embedded as records of calendar
fields (year, month, day, hour, minute, second; microseconds are never
used by the modelled code and are omitted).  Python datetimes are valid
by construction, so operations that the source only ever applies to
constructed datetimes carry a validity hypothesis where termination or
correctness needs it.  Chronological comparison of naive datetimes is
modelled through conversion to a linear second count (`dtToSecs`),
which coincides with Python's field-lexicographic comparison on valid
datetimes.  Randomness (`random.choice`, `random.uniform`, `Faker`
draws) is modelled by explicit oracle parameters.
-/

namespace Nise

/-- Leap-year rule of the proleptic Gregorian calendar
(`calendar.isleap`). -/
def isLeap (y : Nat) : Bool :=
  (y % 4 == 0 && y % 100 != 0) || y % 400 == 0

/-- Number of days of month `m` of year `y`
(`calendar.monthrange(year, month)[1]`); `0` on out-of-range months. -/
def daysInMonth (y m : Nat) : Nat :=
  match m with
  | 1 => 31
  | 2 => if isLeap y then 29 else 28
  | 3 => 31
  | 4 => 30
  | 5 => 31
  | 6 => 30
  | 7 => 31
  | 8 => 31
  | 9 => 30
  | 10 => 31
  | 11 => 30
  | 12 => 31
  | _ => 0

/-- Days in all months strictly before month `m` of year `y`. -/
def daysBeforeMonth (y : Nat) : Nat → Nat
  | 0 => 0
  | m + 1 => daysBeforeMonth y m + daysInMonth y m

/-- Days in all years strictly before year `y` (year 1 is the first
year, as in `datetime.toordinal`). -/
def daysBeforeYear (y : Nat) : Nat :=
  365 * (y - 1) + (y - 1) / 4 - (y - 1) / 100 + (y - 1) / 400

/-- Proleptic-Gregorian ordinal day number of a calendar date
(0-based variant of `datetime.toordinal`). -/
def toOrdinalDays (y m d : Nat) : Nat :=
  daysBeforeYear y + daysBeforeMonth y m + (d - 1)

/-- Embedding of a (naive) Python `datetime.datetime`; microseconds are
omitted (never used by the modelled code). -/
structure DateTime where
  year : Nat
  month : Nat
  day : Nat
  hour : Nat
  minute : Nat
  second : Nat
  deriving Repr, DecidableEq

/-- Field validity enforced by the `datetime` constructor. -/
def ValidDT (t : DateTime) : Prop :=
  1 ≤ t.year ∧ 1 ≤ t.month ∧ t.month ≤ 12 ∧ 1 ≤ t.day ∧
    t.day ≤ daysInMonth t.year t.month ∧ t.hour ≤ 23 ∧
    t.minute ≤ 59 ∧ t.second ≤ 59

instance (t : DateTime) : Decidable (ValidDT t) := by
  unfold ValidDT; infer_instance

/-- Position of a datetime on the linear second timeline.  Naive
Python datetimes compare and subtract exactly as these second counts
do. -/
def dtToSecs (t : DateTime) : Nat :=
  86400 * toOrdinalDays t.year t.month t.day +
    3600 * t.hour + 60 * t.minute + t.second

/-- Chronological `<=` on datetimes (Python `datetime.__le__` on valid
datetimes). -/
def dtLe (a b : DateTime) : Prop := dtToSecs a ≤ dtToSecs b

/-- Chronological `<` on datetimes. -/
def dtLt (a b : DateTime) : Prop := dtToSecs a < dtToSecs b

instance (a b : DateTime) : Decidable (dtLe a b) := by
  unfold dtLe; infer_instance

instance (a b : DateTime) : Decidable (dtLt a b) := by
  unfold dtLt; infer_instance

/-- `t + datetime.timedelta(minutes=60)`: advance a datetime by one
hour, carrying into day/month/year as needed. -/
def addHour (t : DateTime) : DateTime :=
  if t.hour < 23 then { t with hour := t.hour + 1 }
  else if t.day < daysInMonth t.year t.month then
    { t with hour := 0, day := t.day + 1 }
  else if t.month < 12 then
    { t with hour := 0, day := 1, month := t.month + 1 }
  else
    { t with hour := 0, day := 1, month := 1, year := t.year + 1 }

/-- `t.replace(hour=23)` (minutes and seconds are preserved). -/
def replaceHour23 (t : DateTime) : DateTime := { t with hour := 23 }

theorem daysInMonth_pos (y m : Nat) (h1 : 1 ≤ m) (h2 : m ≤ 12) :
    1 ≤ daysInMonth y m := by
  interval_cases m <;> simp only [daysInMonth] <;> (try split) <;> omega

theorem daysInMonth_le (y m : Nat) : daysInMonth y m ≤ 31 := by
  unfold daysInMonth
  split
  any_goals omega
  split <;> omega

theorem daysBeforeMonth_succ (y m : Nat) :
    daysBeforeMonth y (m + 1) = daysBeforeMonth y m + daysInMonth y m := rfl

theorem daysBeforeMonth_13 (y : Nat) :
    daysBeforeMonth y 13 = 365 + (if isLeap y then 1 else 0) := by
  by_cases h : isLeap y <;>
    simp [daysBeforeMonth, daysInMonth, h]

set_option maxHeartbeats 1600000 in
theorem daysBeforeYear_succ (y : Nat) (hy : 1 ≤ y) :
    daysBeforeYear (y + 1) =
      daysBeforeYear y + 365 + (if isLeap y then 1 else 0) := by
  by_cases hL : isLeap y = true
  · have h' := hL
    simp only [isLeap, Bool.or_eq_true, Bool.and_eq_true, beq_iff_eq,
      bne_iff_ne, ne_eq] at h'
    rw [if_pos hL]
    unfold daysBeforeYear
    simp only [Nat.add_sub_cancel]
    omega
  · have h' := hL
    simp only [isLeap, Bool.or_eq_true, Bool.and_eq_true, beq_iff_eq,
      bne_iff_ne, ne_eq, not_or, not_and, not_not] at h'
    rw [if_neg hL]
    unfold daysBeforeYear
    simp only [Nat.add_sub_cancel]
    omega

theorem valid_addHour {t : DateTime} (h : ValidDT t) : ValidDT (addHour t) := by
  obtain ⟨hy, hm1, hm2, hd1, hd2, hh, hmi, hs⟩ := h
  unfold addHour
  split
  · rename_i h1
    exact ⟨hy, hm1, hm2, hd1, hd2, show t.hour + 1 ≤ 23 by omega, hmi, hs⟩
  · split
    · rename_i h1 h2
      exact ⟨hy, hm1, hm2, show 1 ≤ t.day + 1 by omega,
        show t.day + 1 ≤ daysInMonth t.year t.month by omega,
        show (0 : Nat) ≤ 23 by omega, hmi, hs⟩
    · split
      · rename_i h1 h2 h3
        exact ⟨hy, show 1 ≤ t.month + 1 by omega,
          show t.month + 1 ≤ 12 by omega, le_refl 1,
          show 1 ≤ daysInMonth t.year (t.month + 1) from
            daysInMonth_pos _ _ (by omega) (by omega),
          show (0 : Nat) ≤ 23 by omega, hmi, hs⟩
      · rename_i h1 h2 h3
        exact ⟨show 1 ≤ t.year + 1 by omega, le_refl 1,
          show (1 : Nat) ≤ 12 by omega, le_refl 1,
          show 1 ≤ daysInMonth (t.year + 1) 1 from
            daysInMonth_pos _ _ (by omega) (by omega),
          show (0 : Nat) ≤ 23 by omega, hmi, hs⟩

theorem dtToSecs_addHour {t : DateTime} (h : ValidDT t) :
    dtToSecs (addHour t) = dtToSecs t + 3600 := by
  obtain ⟨hy, hm1, hm2, hd1, hd2, hh, hmi, hs⟩ := h
  unfold addHour
  split
  · simp only [dtToSecs, toOrdinalDays]
    omega
  · rename_i hh23
    have hh' : t.hour = 23 := by omega
    split
    · rename_i hday
      simp only [dtToSecs, toOrdinalDays, hh']
      omega
    · rename_i hday
      have hd' : t.day = daysInMonth t.year t.month := by omega
      split
      · rename_i hmon
        simp only [dtToSecs, toOrdinalDays, hh']
        rw [daysBeforeMonth_succ]
        have hdim : 1 ≤ daysInMonth t.year t.month :=
          daysInMonth_pos _ _ hm1 hm2
        omega
      · rename_i hmon
        have hm12 : t.month = 12 := by omega
        have hd31 : t.day = 31 := by rw [hd', hm12]; rfl
        have hys : daysBeforeYear (t.year + 1) =
            daysBeforeYear t.year + 365 + (if isLeap t.year then 1 else 0) :=
          daysBeforeYear_succ _ hy
        have h13a : daysBeforeMonth t.year 13 = daysBeforeMonth t.year 12 + 31 := by
          rw [daysBeforeMonth_succ]; rfl
        have h13b := daysBeforeMonth_13 t.year
        have hB1 : daysBeforeMonth (t.year + 1) 1 = 0 := rfl
        simp only [dtToSecs, toOrdinalDays, hh', hm12, hd31, hB1]
        by_cases hl : isLeap t.year = true <;>
          simp only [hl, if_true, if_false, Bool.false_eq_true] at hys h13b <;>
          omega

/-! ## Timeline Builder: `AbstractGenerator._set_hours`
(`nise/generators/generator.py`).

The Python loop `while (cur_date + one_hour) <= end_date: ...` is
embedded as well-founded recursion; a validity invariant on `cur_date`
(automatic for Python datetimes) is threaded through as a proof
argument so the measure `dtToSecs end - dtToSecs cur` decreases. -/

/-- One entry of the `hours` list: `{'start': ..., 'end': ...}`. -/
structure Window where
  start : DateTime
  «end» : DateTime
  deriving Repr, DecidableEq

/-- The `while` loop of `_set_hours`: starting from `cur_date`,
emit `{cur, cur + 1h}` and advance while `cur + 1h <= end_date`
(where `end_date` is the hour-23-normalized end). -/
def setHoursLoop (endN : DateTime) (cur : DateTime) (hcur : ValidDT cur) :
    List Window :=
  if dtLe (addHour cur) endN then
    { start := cur, «end» := addHour cur } ::
      setHoursLoop endN (addHour cur) (valid_addHour hcur)
  else []
  termination_by dtToSecs endN - dtToSecs cur
  decreasing_by
    have := dtToSecs_addHour hcur
    rename_i hguard
    unfold dtLe at hguard
    omega

/-- `AbstractGenerator._set_hours`: validates `end_date >= start_date`
(the `None`/type checks are unrepresentable in the typed model),
normalizes `end_date` to hour 23 of its day, and runs the hourly loop
from `start_date`. -/
def setHours (start_date end_date : DateTime) (hs : ValidDT start_date) :
    Except String (List Window) :=
  if dtLt end_date start_date then
    .error "start_date must be a date object less than end_date."
  else
    .ok (setHoursLoop (replaceHour23 end_date) start_date hs)

theorem setHoursLoop_eq (endN cur : DateTime) (hcur : ValidDT cur) :
    setHoursLoop endN cur hcur =
      if dtLe (addHour cur) endN then
        { start := cur, «end» := addHour cur } ::
          setHoursLoop endN (addHour cur) (valid_addHour hcur)
      else [] := by
  rw [setHoursLoop]

/-- Length of the hourly window list: the floor of the number of hours
between `cur` and the normalized end. -/
theorem setHoursLoop_length (endN : DateTime) :
    ∀ n (cur : DateTime) (hcur : ValidDT cur),
      dtToSecs endN - dtToSecs cur = n →
      (setHoursLoop endN cur hcur).length =
        (dtToSecs endN - dtToSecs cur) / 3600 := by
  intro n
  induction n using Nat.strong_induction_on with
  | _ n ih =>
    intro cur hcur hn
    rw [setHoursLoop_eq]
    by_cases hg : dtLe (addHour cur) endN
    · rw [if_pos hg]
      have hstep := dtToSecs_addHour hcur
      have hg' : dtToSecs cur + 3600 ≤ dtToSecs endN := by
        unfold dtLe at hg; omega
      have hlt : dtToSecs endN - dtToSecs (addHour cur) < n := by omega
      have := ih _ hlt (addHour cur) (valid_addHour hcur) rfl
      simp only [List.length_cons, this, hstep]
      omega
    · rw [if_neg hg]
      have hstep := dtToSecs_addHour hcur
      unfold dtLe at hg
      simp only [List.length_nil]
      omega

/-- Every window of the hourly list is exactly one hour: its end is
its start advanced by one hour, and its start is a valid datetime. -/
theorem setHoursLoop_windows (endN : DateTime) :
    ∀ n (cur : DateTime) (hcur : ValidDT cur),
      dtToSecs endN - dtToSecs cur = n →
      ∀ w ∈ setHoursLoop endN cur hcur,
        w.end = addHour w.start ∧ ValidDT w.start ∧
          dtToSecs w.end = dtToSecs w.start + 3600 := by
  intro n
  induction n using Nat.strong_induction_on with
  | _ n ih =>
    intro cur hcur hn w hw
    rw [setHoursLoop_eq] at hw
    by_cases hg : dtLe (addHour cur) endN
    · rw [if_pos hg] at hw
      have hstep := dtToSecs_addHour hcur
      have hg' : dtToSecs cur + 3600 ≤ dtToSecs endN := by
        unfold dtLe at hg; omega
      rcases List.mem_cons.mp hw with hw1 | hw2
      · subst hw1
        exact ⟨rfl, hcur, hstep⟩
      · have hlt : dtToSecs endN - dtToSecs (addHour cur) < n := by omega
        exact ih _ hlt (addHour cur) (valid_addHour hcur) rfl w hw2
    · rw [if_neg hg] at hw
      simp at hw

/-- The hourly windows are contiguous: each window's start is the
previous window's end. -/
theorem setHoursLoop_chain (endN : DateTime) :
    ∀ n (cur : DateTime) (hcur : ValidDT cur),
      dtToSecs endN - dtToSecs cur = n →
      List.Chain' (fun w1 w2 => w2.start = w1.end)
        (setHoursLoop endN cur hcur) := by
  intro n
  induction n using Nat.strong_induction_on with
  | _ n ih =>
    intro cur hcur hn
    rw [setHoursLoop_eq]
    by_cases hg : dtLe (addHour cur) endN
    · rw [if_pos hg]
      have hstep := dtToSecs_addHour hcur
      have hg' : dtToSecs cur + 3600 ≤ dtToSecs endN := by
        unfold dtLe at hg; omega
      have hlt : dtToSecs endN - dtToSecs (addHour cur) < n := by omega
      have htail := ih _ hlt (addHour cur) (valid_addHour hcur) rfl
      refine List.chain'_cons'.mpr ⟨?_, htail⟩
      intro w2 hw2
      rw [setHoursLoop_eq] at hw2
      by_cases hg2 : dtLe (addHour (addHour cur)) endN
      · rw [if_pos hg2] at hw2
        simp only [List.head?_cons, Option.mem_def, Option.some.injEq] at hw2
        subst hw2
        rfl
      · rw [if_neg hg2] at hw2
        simp at hw2
    · rw [if_neg hg]
      exact List.chain'_nil

/-- If the loop emits anything, the first window starts at `cur`. -/
theorem setHoursLoop_head (endN cur : DateTime) (hcur : ValidDT cur) :
    ∀ w, (setHoursLoop endN cur hcur).head? = some w → w.start = cur := by
  intro w hw
  rw [setHoursLoop_eq] at hw
  by_cases hg : dtLe (addHour cur) endN
  · rw [if_pos hg] at hw
    simp only [List.head?_cons, Option.some.injEq] at hw
    rw [← hw]
  · rw [if_neg hg] at hw
    simp at hw

/-! ### Claims C2 and C7 (Timeline Builder) -/

/-- C2: for every pair of valid datetimes with `start < end`,
`_set_hours` succeeds and produces exactly
`floor(hours_between(start, end_at_hour_23))` windows, each exactly one
hour long (its end is its start advanced by one hour), contiguous
(each window's start equals the previous window's end), with the first
window starting exactly at `start`. -/
theorem claim_C2_setHours (s e : DateTime) (hs : ValidDT s) (he : ValidDT e)
    (hlt : dtLt s e) :
    setHours s e hs = .ok (setHoursLoop (replaceHour23 e) s hs) ∧
      (setHoursLoop (replaceHour23 e) s hs).length =
        (dtToSecs (replaceHour23 e) - dtToSecs s) / 3600 ∧
      (∀ w ∈ setHoursLoop (replaceHour23 e) s hs,
        w.end = addHour w.start ∧
          dtToSecs w.end = dtToSecs w.start + 3600) ∧
      List.Chain' (fun w1 w2 => w2.start = w1.end)
        (setHoursLoop (replaceHour23 e) s hs) ∧
      (∀ w, (setHoursLoop (replaceHour23 e) s hs).head? = some w →
        w.start = s) := by
  refine ⟨?_, ?_, ?_, ?_, ?_⟩
  · unfold setHours
    rw [if_neg]
    unfold dtLt at hlt ⊢
    omega
  · exact setHoursLoop_length _ _ s hs rfl
  · intro w hw
    obtain ⟨h1, _, h3⟩ := setHoursLoop_windows _ _ s hs rfl w hw
    exact ⟨h1, h3⟩
  · exact setHoursLoop_chain _ _ s hs rfl
  · exact setHoursLoop_head _ s hs

/-- Witness for C2 at a concrete input: June 15 2018, 10:30 to 13:00
(the normalized end is 23:00, so 12 whole hours fit after 10:30). -/
theorem claim_C2_setHours_witness :
    (setHours ⟨2018, 6, 15, 10, 30, 0⟩ ⟨2018, 6, 15, 13, 0, 0⟩ (by decide) =
        .ok (setHoursLoop (replaceHour23 ⟨2018, 6, 15, 13, 0, 0⟩)
          ⟨2018, 6, 15, 10, 30, 0⟩ (by decide)) ∧
      (setHoursLoop (replaceHour23 ⟨2018, 6, 15, 13, 0, 0⟩)
          ⟨2018, 6, 15, 10, 30, 0⟩ (by decide)).length =
        (dtToSecs (replaceHour23 ⟨2018, 6, 15, 13, 0, 0⟩) -
          dtToSecs ⟨2018, 6, 15, 10, 30, 0⟩) / 3600 ∧
      (∀ w ∈ setHoursLoop (replaceHour23 ⟨2018, 6, 15, 13, 0, 0⟩)
          ⟨2018, 6, 15, 10, 30, 0⟩ (by decide),
        w.end = addHour w.start ∧
          dtToSecs w.end = dtToSecs w.start + 3600) ∧
      List.Chain' (fun w1 w2 => w2.start = w1.end)
        (setHoursLoop (replaceHour23 ⟨2018, 6, 15, 13, 0, 0⟩)
          ⟨2018, 6, 15, 10, 30, 0⟩ (by decide)) ∧
      (∀ w, (setHoursLoop (replaceHour23 ⟨2018, 6, 15, 13, 0, 0⟩)
          ⟨2018, 6, 15, 10, 30, 0⟩ (by decide)).head? = some w →
        w.start = ⟨2018, 6, 15, 10, 30, 0⟩)) ∧
    (dtToSecs (replaceHour23 ⟨2018, 6, 15, 13, 0, 0⟩) -
      dtToSecs ⟨2018, 6, 15, 10, 30, 0⟩) / 3600 = 12 :=
  ⟨claim_C2_setHours _ _ (by decide) (by decide) (by decide), by decide⟩

/-- C7 counterexample: `start = 2018-01-01 00:00:00` and
`end = 2018-01-01 00:30:00` fall within the same hour and satisfy
`start <= end`, yet `_set_hours` returns 23 windows, not the empty
sequence: normalizing `end` to hour 23 keeps its minutes, so the loop
runs until 23:30 of that day. -/
theorem claim_C7_counterexample :
    dtLe ⟨2018, 1, 1, 0, 0, 0⟩ ⟨2018, 1, 1, 0, 30, 0⟩ ∧
    setHours ⟨2018, 1, 1, 0, 0, 0⟩ ⟨2018, 1, 1, 0, 30, 0⟩ (by decide) =
      .ok (setHoursLoop (replaceHour23 ⟨2018, 1, 1, 0, 30, 0⟩)
        ⟨2018, 1, 1, 0, 0, 0⟩ (by decide)) ∧
    (setHoursLoop (replaceHour23 ⟨2018, 1, 1, 0, 30, 0⟩)
        ⟨2018, 1, 1, 0, 0, 0⟩ (by decide)).length = 23 := by
  refine ⟨by decide, ?_, ?_⟩
  · unfold setHours
    rw [if_neg (by decide)]
  · rw [setHoursLoop_length _ _ _ _ rfl]
    decide

/-- C7 as amended: for valid datetimes in the same clock hour with
`start <= end`, `_set_hours` raises no error; but the window sequence
is empty precisely when `start + 1h` exceeds `end` normalized to hour
23 (in particular when the shared hour is hour 23 of the day) — for
earlier hours the sequence is the non-empty tail of that day's hourly
windows. -/
theorem claim_C7_amended (s e : DateTime) (hs : ValidDT s) (he : ValidDT e)
    (hy : s.year = e.year) (hmo : s.month = e.month) (hd : s.day = e.day)
    (hh : s.hour = e.hour) (hle : dtLe s e) :
    setHours s e hs = .ok (setHoursLoop (replaceHour23 e) s hs) ∧
      (setHoursLoop (replaceHour23 e) s hs = [] ↔
        dtToSecs (replaceHour23 e) < dtToSecs s + 3600) := by
  constructor
  · unfold setHours
    rw [if_neg]
    unfold dtLt
    unfold dtLe at hle
    omega
  · have hstep := dtToSecs_addHour hs
    rw [setHoursLoop_eq]
    by_cases hg : dtLe (addHour s) (replaceHour23 e)
    · rw [if_pos hg]
      unfold dtLe at hg
      constructor
      · intro hcontra
        exact absurd hcontra (by simp)
      · intro hcond
        omega
    · rw [if_neg hg]
      unfold dtLe at hg
      simp only [List.nil_eq, true_iff]
      omega

/-- Witness for the amended C7: 23:10 to 23:20 of the same day (shared
hour 23) gives the empty window list without an error. -/
theorem claim_C7_amended_witness :
    (setHours ⟨2018, 1, 1, 23, 10, 0⟩ ⟨2018, 1, 1, 23, 20, 0⟩ (by decide) =
        .ok (setHoursLoop (replaceHour23 ⟨2018, 1, 1, 23, 20, 0⟩)
          ⟨2018, 1, 1, 23, 10, 0⟩ (by decide)) ∧
      (setHoursLoop (replaceHour23 ⟨2018, 1, 1, 23, 20, 0⟩)
          ⟨2018, 1, 1, 23, 10, 0⟩ (by decide) = [] ↔
        dtToSecs (replaceHour23 ⟨2018, 1, 1, 23, 20, 0⟩) <
          dtToSecs ⟨2018, 1, 1, 23, 10, 0⟩ + 3600)) ∧
    dtToSecs (replaceHour23 ⟨2018, 1, 1, 23, 20, 0⟩) <
      dtToSecs ⟨2018, 1, 1, 23, 10, 0⟩ + 3600 :=
  ⟨claim_C7_amended _ _ (by decide) (by decide) rfl rfl rfl rfl (by decide),
    by decide⟩

/-! ## Month Segmenter: `_create_month_list` (`nise/report.py`).

`_create_month_list` only inspects the date part of its datetime
arguments (`replace(day=1)`, `datetime(year, month, day)`, month
fields, and chronological comparison, which at the points compared
coincides with date-lexicographic comparison because `current` always
has day 1 and time 00:00).  It is therefore embedded over calendar
dates. -/

/-- Date part of a datetime, as used by `_create_month_list`. -/
structure Date where
  year : Nat
  month : Nat
  day : Nat
  deriving Repr, DecidableEq

/-- Date validity enforced by the `datetime` constructor. -/
def ValidDate (d : Date) : Prop :=
  1 ≤ d.year ∧ 1 ≤ d.month ∧ d.month ≤ 12 ∧ 1 ≤ d.day ∧
    d.day ≤ daysInMonth d.year d.month

instance (d : Date) : Decidable (ValidDate d) := by
  unfold ValidDate; infer_instance

/-- Chronological `<=` on dates (lexicographic on fields). -/
def dateLe (a b : Date) : Prop :=
  a.year < b.year ∨ (a.year = b.year ∧
    (a.month < b.month ∨ (a.month = b.month ∧ a.day ≤ b.day)))

/-- Chronological `<` on dates. -/
def dateLt (a b : Date) : Prop :=
  a.year < b.year ∨ (a.year = b.year ∧
    (a.month < b.month ∨ (a.month = b.month ∧ a.day < b.day)))

instance (a b : Date) : Decidable (dateLe a b) := by
  unfold dateLe; infer_instance

instance (a b : Date) : Decidable (dateLt a b) := by
  unfold dateLt; infer_instance

/-- `calendar.month_name[m]` (entry 0 is the empty string). -/
def monthName (m : Nat) : String :=
  match m with
  | 1 => "January"
  | 2 => "February"
  | 3 => "March"
  | 4 => "April"
  | 5 => "May"
  | 6 => "June"
  | 7 => "July"
  | 8 => "August"
  | 9 => "September"
  | 10 => "October"
  | 11 => "November"
  | 12 => "December"
  | _ => ""

/-- One entry of the list returned by `_create_month_list`:
`{'name': ..., 'start': ..., 'end': ...}`. -/
structure MonthSegment where
  name : String
  start : Date
  «end» : Date
  deriving Repr, DecidableEq

/-- The `while current <= end_date` loop of `_create_month_list`.
`current` is always the first of a month, so it is carried as the pair
`(y, m)`; `relativedelta(months=+1)` is the `m < 12` branch pair.  The
month bounds on `m` (automatic for Python datetimes) are threaded for
termination. -/
def createMonthListLoop (start_date end_date : Date) (y m : Nat)
    (hm1 : 1 ≤ m) (hm2 : m ≤ 12) : List MonthSegment :=
  if hg : dateLe ⟨y, m, 1⟩ end_date then
    { name := monthName m,
      start := if m = start_date.month then start_date else ⟨y, m, 1⟩,
      «end» := if m = end_date.month then end_date
               else ⟨y, m, daysInMonth y m⟩ } ::
    (if h12 : m < 12 then
      createMonthListLoop start_date end_date y (m + 1) (by omega) (by omega)
    else
      createMonthListLoop start_date end_date (y + 1) 1 (by omega) (by omega))
  else []
  termination_by 12 * end_date.year + end_date.month + 1 - (12 * y + m)
  decreasing_by
    · unfold dateLe at hg; dsimp only at hg; omega
    · unfold dateLe at hg; dsimp only at hg; omega

/-- `_create_month_list(start_date, end_date)`: starts from
`start_date.replace(day=1)` and walks month by month. -/
def createMonthList (start_date end_date : Date)
    (hm1 : 1 ≤ start_date.month) (hm2 : start_date.month ≤ 12) :
    List MonthSegment :=
  createMonthListLoop start_date end_date start_date.year start_date.month
    hm1 hm2

theorem createMonthListLoop_eq (start_date end_date : Date) (y m : Nat)
    (hm1 : 1 ≤ m) (hm2 : m ≤ 12) :
    createMonthListLoop start_date end_date y m hm1 hm2 =
      if dateLe ⟨y, m, 1⟩ end_date then
        { name := monthName m,
          start := if m = start_date.month then start_date else ⟨y, m, 1⟩,
          «end» := if m = end_date.month then end_date
                   else ⟨y, m, daysInMonth y m⟩ } ::
        (if h12 : m < 12 then
          createMonthListLoop start_date end_date y (m + 1) (by omega)
            (by omega)
        else
          createMonthListLoop start_date end_date (y + 1) 1 (by omega)
            (by omega))
      else [] := by
  rw [createMonthListLoop]
  by_cases hg : dateLe ⟨y, m, 1⟩ end_date
  · rw [dif_pos hg, if_pos hg]
  · rw [dif_neg hg, if_neg hg]

/-- Year of the month with linear index `i` (where the index of month
`(y, m)` is `12 * y + m`). -/
def idxYear (i : Nat) : Nat := (i - 1) / 12

/-- Month number of the month with linear index `i`. -/
def idxMonth (i : Nat) : Nat := (i - 1) % 12 + 1

/-- The segment `_create_month_list` builds for the month with linear
index `i` (including its month-number-based clamping of the first and
last segment). -/
def segAt (start_date end_date : Date) (i : Nat) : MonthSegment :=
  { name := monthName (idxMonth i),
    start := if idxMonth i = start_date.month then start_date
             else ⟨idxYear i, idxMonth i, 1⟩,
    «end» := if idxMonth i = end_date.month then end_date
             else ⟨idxYear i, idxMonth i,
                   daysInMonth (idxYear i) (idxMonth i)⟩ }

theorem dateLe_first_iff (y m : Nat) (e : Date) (hm1 : 1 ≤ m)
    (hm2 : m ≤ 12) (hem1 : 1 ≤ e.month) (hem2 : e.month ≤ 12)
    (hed : 1 ≤ e.day) :
    dateLe ⟨y, m, 1⟩ e ↔ 12 * y + m ≤ 12 * e.year + e.month := by
  unfold dateLe
  dsimp only
  constructor <;> intro h <;> omega

/-- Closed form of the `_create_month_list` loop: it emits one segment
per linear month index from `12 * y + m` up to the index of
`end_date`'s month. -/
theorem createMonthListLoop_closed (start_date end_date : Date)
    (hem1 : 1 ≤ end_date.month) (hem2 : end_date.month ≤ 12)
    (hed : 1 ≤ end_date.day) :
    ∀ n y m (hm1 : 1 ≤ m) (hm2 : m ≤ 12),
      12 * end_date.year + end_date.month + 1 - (12 * y + m) = n →
      createMonthListLoop start_date end_date y m hm1 hm2 =
        (List.range
          (12 * end_date.year + end_date.month + 1 - (12 * y + m))).map
          (fun k => segAt start_date end_date (12 * y + m + k)) := by
  intro n
  induction n using Nat.strong_induction_on with
  | _ n ih =>
    intro y m hm1 hm2 hn
    rw [createMonthListLoop_eq]
    by_cases hg : dateLe ⟨y, m, 1⟩ end_date
    · rw [if_pos hg]
      have hidx := (dateLe_first_iff y m end_date hm1 hm2 hem1 hem2 hed).mp hg
      have hrange : 12 * end_date.year + end_date.month + 1 - (12 * y + m) =
          (12 * end_date.year + end_date.month + 1 - (12 * y + m + 1)) + 1 := by
        omega
      rw [hrange, List.range_succ_eq_map, List.map_cons]
      have hhead : segAt start_date end_date (12 * y + m + 0) =
          { name := monthName m,
            start := if m = start_date.month then start_date else ⟨y, m, 1⟩,
            «end» := if m = end_date.month then end_date
                     else ⟨y, m, daysInMonth y m⟩ } := by
        have e1 : idxYear (12 * y + m + 0) = y := by
          simp only [idxYear]; omega
        have e2 : idxMonth (12 * y + m + 0) = m := by
          simp only [idxMonth]; omega
        unfold segAt
        rw [e1, e2]
      rw [hhead]
      congr 1
      by_cases h12 : m < 12
      · rw [dif_pos h12]
        have hlt : 12 * end_date.year + end_date.month + 1 -
            (12 * y + (m + 1)) < n := by omega
        rw [ih _ hlt y (m + 1) (by omega) (by omega) rfl]
        rw [List.map_map]
        apply List.map_congr_left
        intro k hk
        have : 12 * y + (m + 1) + k = 12 * y + m + (k + 1) := by omega
        simp only [Function.comp_apply, this]
      · rw [dif_neg h12]
        have hm12 : m = 12 := by omega
        have hlt : 12 * end_date.year + end_date.month + 1 -
            (12 * (y + 1) + 1) < n := by omega
        rw [ih _ hlt (y + 1) 1 (by omega) (by omega) rfl]
        have harg : 12 * end_date.year + end_date.month + 1 -
            (12 * (y + 1) + 1) =
            12 * end_date.year + end_date.month + 1 - (12 * y + m + 1) := by
          omega
        rw [harg, List.map_map]
        apply List.map_congr_left
        intro k hk
        have : 12 * (y + 1) + 1 + k = 12 * y + m + (k + 1) := by omega
        simp only [Function.comp_apply, this]
    · rw [if_neg hg]
      have hidx := (dateLe_first_iff y m end_date hm1 hm2 hem1 hem2 hed)
      have : 12 * end_date.year + end_date.month + 1 - (12 * y + m) = 0 := by
        by_cases hle : 12 * y + m ≤ 12 * end_date.year + end_date.month
        · exact absurd (hidx.mpr hle) hg
        · omega
      rw [this]
      rfl

/-! ### Claim C6 (Month Segmenter on inverted ranges) -/

/-- C6 counterexample: for `start_date = 2018-03-15` and
`end_date = 2018-03-10` (so `end_date < start_date`),
`_create_month_list` does not fail: it returns a one-element list whose
single segment is inverted (`start > end`). -/
theorem claim_C6_counterexample :
    dateLt ⟨2018, 3, 10⟩ ⟨2018, 3, 15⟩ ∧
    createMonthList ⟨2018, 3, 15⟩ ⟨2018, 3, 10⟩ (by decide) (by decide) =
      [{ name := "March", start := ⟨2018, 3, 15⟩, «end» := ⟨2018, 3, 10⟩ }] := by
  have hc := createMonthListLoop_closed ⟨2018, 3, 15⟩ ⟨2018, 3, 10⟩
    (by decide) (by decide) (by decide) 1 2018 3 (by decide) (by decide)
    (by decide)
  refine ⟨by decide, ?_⟩
  show createMonthListLoop ⟨2018, 3, 15⟩ ⟨2018, 3, 10⟩ 2018 3
    (by decide) (by decide) =
    [{ name := "March", start := ⟨2018, 3, 15⟩, «end» := ⟨2018, 3, 10⟩ }]
  exact hc.trans (by decide)

/-- C6 as amended: when `end_date < start_date`, `_create_month_list`
raises no error; it returns the empty list when `end_date` precedes the
first day of `start_date`'s month, and otherwise exactly one segment
`{start_date, end_date}`, which is inverted. -/
theorem claim_C6_amended (sd ed : Date) (hsv : ValidDate sd)
    (hev : ValidDate ed) (hm1 : 1 ≤ sd.month) (hm2 : sd.month ≤ 12)
    (hlt : dateLt ed sd) :
    createMonthList sd ed hm1 hm2 =
      if dateLe ⟨sd.year, sd.month, 1⟩ ed then
        [{ name := monthName sd.month, start := sd, «end» := ed }]
      else [] := by
  obtain ⟨hsy, hsm1, hsm2, hsd1, hsd2⟩ := hsv
  obtain ⟨hey, hem1, hem2, hed1, hed2⟩ := hev
  unfold createMonthList
  rw [createMonthListLoop_eq]
  by_cases hg : dateLe ⟨sd.year, sd.month, 1⟩ ed
  · rw [if_pos hg, if_pos hg]
    have hidx := (dateLe_first_iff sd.year sd.month ed hm1 hm2
      hem1 hem2 hed1).mp hg
    have hlt' : 12 * ed.year + ed.month ≤ 12 * sd.year + sd.month := by
      unfold dateLt at hlt
      omega
    have hsame : ed.year = sd.year ∧ ed.month = sd.month := by omega
    congr 1
    · rw [if_pos rfl, if_pos hsame.2.symm]
    · by_cases h12 : sd.month < 12
      · rw [dif_pos h12]
        rw [createMonthListLoop_closed sd ed hem1 hem2 hed1 _ sd.year
          (sd.month + 1) (by omega) (by omega) rfl]
        rw [show 12 * ed.year + ed.month + 1 -
          (12 * sd.year + (sd.month + 1)) = 0 by omega]
        rfl
      · rw [dif_neg h12]
        rw [createMonthListLoop_closed sd ed hem1 hem2 hed1 _ (sd.year + 1)
          1 (by omega) (by omega) rfl]
        rw [show 12 * ed.year + ed.month + 1 -
          (12 * (sd.year + 1) + 1) = 0 by omega]
        rfl
  · rw [if_neg hg, if_neg hg]

/-- Witness for the amended C6 at both branches: an in-month inverted
range yields one inverted segment, and an end before the 1st of the
start month yields the empty list. -/
theorem claim_C6_amended_witness :
    (createMonthList ⟨2018, 3, 15⟩ ⟨2018, 3, 10⟩ (by decide) (by decide) =
      if dateLe ⟨2018, 3, 1⟩ ⟨2018, 3, 10⟩ then
        [{ name := monthName 3, start := ⟨2018, 3, 15⟩,
           «end» := ⟨2018, 3, 10⟩ }]
      else []) ∧
    (createMonthList ⟨2018, 3, 15⟩ ⟨2018, 2, 20⟩ (by decide) (by decide) =
      if dateLe ⟨2018, 3, 1⟩ ⟨2018, 2, 20⟩ then
        [{ name := monthName 3, start := ⟨2018, 3, 15⟩,
           «end» := ⟨2018, 2, 20⟩ }]
      else []) :=
  ⟨claim_C6_amended _ _ (by decide) (by decide) (by decide) (by decide)
      (by decide),
    claim_C6_amended _ _ (by decide) (by decide) (by decide) (by decide)
      (by decide)⟩

/-! ### Claim C1 (Month Segmenter on forward ranges) -/

/-- Successor of a calendar date (statement-side helper used to phrase
"consecutive with zero gap or overlap"). -/
def dateNextDay (d : Date) : Date :=
  if d.day < daysInMonth d.year d.month then ⟨d.year, d.month, d.day + 1⟩
  else if d.month < 12 then ⟨d.year, d.month + 1, 1⟩
  else ⟨d.year + 1, 1, 1⟩

/-- C1 counterexample: on the 13-month range 2018-01-15 .. 2019-01-10,
`_create_month_list` clamps by month **number** only
(`current.month == start_date.month` / `== end_date.month`), so the
January-2018 segment is clamped on both sides to
`{2018-01-15, 2019-01-10}` and overlaps every later segment (e.g. the
February 2018 segment starting 2018-02-01), violating "consecutive
with zero gap or overlap" and "interior segments run to the month's
last day". -/
theorem claim_C1_counterexample :
    dateLe ⟨2018, 1, 15⟩ ⟨2019, 1, 10⟩ ∧
    (createMonthList ⟨2018, 1, 15⟩ ⟨2019, 1, 10⟩ (by decide)
      (by decide)).length = 13 ∧
    (createMonthList ⟨2018, 1, 15⟩ ⟨2019, 1, 10⟩ (by decide)
      (by decide))[0]? =
      some { name := "January", start := ⟨2018, 1, 15⟩,
             «end» := ⟨2019, 1, 10⟩ } ∧
    (createMonthList ⟨2018, 1, 15⟩ ⟨2019, 1, 10⟩ (by decide)
      (by decide))[1]? =
      some { name := "February", start := ⟨2018, 2, 1⟩,
             «end» := ⟨2018, 2, 28⟩ } ∧
    dateLt ⟨2018, 2, 1⟩ ⟨2019, 1, 10⟩ := by
  have hc := createMonthListLoop_closed ⟨2018, 1, 15⟩ ⟨2019, 1, 10⟩
    (by decide) (by decide) (by decide) 13 2018 1 (by decide) (by decide)
    (by decide)
  have hL : createMonthList ⟨2018, 1, 15⟩ ⟨2019, 1, 10⟩ (by decide)
      (by decide) =
      (List.range (12 * 2019 + 1 + 1 - (12 * 2018 + 1))).map
        (fun k => segAt ⟨2018, 1, 15⟩ ⟨2019, 1, 10⟩ (12 * 2018 + 1 + k)) :=
    hc
  refine ⟨by decide, ?_, ?_, ?_, by decide⟩ <;> rw [hL] <;> decide

theorem dateNextDay_monthEnd (y m : Nat) :
    dateNextDay ⟨y, m, daysInMonth y m⟩ =
      if m < 12 then ⟨y, m + 1, 1⟩ else ⟨y + 1, 1, 1⟩ := by
  unfold dateNextDay
  dsimp only
  rw [if_neg (lt_irrefl _)]

theorem idxMonth_bounds (t : Nat) :
    1 ≤ idxMonth t ∧ idxMonth t ≤ 12 := by
  unfold idxMonth; omega

theorem idx_succ_no_rollover (t : Nat) (ht : 1 ≤ t)
    (h12 : idxMonth t < 12) :
    idxYear (t + 1) = idxYear t ∧ idxMonth (t + 1) = idxMonth t + 1 := by
  unfold idxMonth at h12 ⊢
  unfold idxYear
  omega

theorem idx_succ_rollover (t : Nat) (ht : 1 ≤ t)
    (h12 : ¬ idxMonth t < 12) :
    idxYear (t + 1) = idxYear t + 1 ∧ idxMonth (t + 1) = 1 := by
  unfold idxMonth at h12 ⊢
  unfold idxYear
  omega

/-- C1 as amended: on a valid range `start_date <= end_date` spanning
`N` calendar months with `N <= 12` (so no month number repeats; for
13 or more months the month-number clamping of `_create_month_list`
breaks, see the counterexample), the segment list has exactly one
segment per month in chronological order: the first segment starts at
`start_date`, the last ends at `end_date`, consecutive segments have
zero gap or overlap (each segment starts on the day after its
predecessor ends), no segment is inverted, and every interior segment
runs from the 1st of its month to that month's actual last day. -/
theorem claim_C1_amended (sd ed : Date) (hsv : ValidDate sd)
    (hev : ValidDate ed) (hm1 : 1 ≤ sd.month) (hm2 : sd.month ≤ 12)
    (hle : dateLe sd ed)
    (hspan : 12 * ed.year + ed.month ≤ 12 * sd.year + sd.month + 11) :
    (createMonthList sd ed hm1 hm2).length =
        12 * ed.year + ed.month + 1 - (12 * sd.year + sd.month) ∧
      ((createMonthList sd ed hm1 hm2)[0]?).map MonthSegment.start =
        some sd ∧
      ((createMonthList sd ed hm1 hm2)[12 * ed.year + ed.month -
          (12 * sd.year + sd.month)]?).map MonthSegment.«end» =
        some ed ∧
      (∀ (i : Nat) (s1 s2 : MonthSegment),
        (createMonthList sd ed hm1 hm2)[i]? = some s1 →
        (createMonthList sd ed hm1 hm2)[i + 1]? = some s2 →
        s2.start = dateNextDay s1.«end») ∧
      (∀ (i : Nat) (s : MonthSegment),
        (createMonthList sd ed hm1 hm2)[i]? = some s →
        dateLe s.start s.«end») ∧
      (∀ (i : Nat) (s : MonthSegment), 0 < i →
        i + 1 < (createMonthList sd ed hm1 hm2).length →
        (createMonthList sd ed hm1 hm2)[i]? = some s →
        s.start = ⟨idxYear (12 * sd.year + sd.month + i),
                   idxMonth (12 * sd.year + sd.month + i), 1⟩ ∧
        s.«end» = ⟨idxYear (12 * sd.year + sd.month + i),
                   idxMonth (12 * sd.year + sd.month + i),
                   daysInMonth (idxYear (12 * sd.year + sd.month + i))
                     (idxMonth (12 * sd.year + sd.month + i))⟩) := by
  obtain ⟨hsy, hsm1, hsm2, hsd1, hsd2⟩ := hsv
  obtain ⟨hey, hem1, hem2, hed1, hed2⟩ := hev
  have hidx : 12 * sd.year + sd.month ≤ 12 * ed.year + ed.month := by
    unfold dateLe at hle
    omega
  have hL : createMonthList sd ed hm1 hm2 =
      (List.range
        (12 * ed.year + ed.month + 1 - (12 * sd.year + sd.month))).map
        (fun k => segAt sd ed (12 * sd.year + sd.month + k)) :=
    createMonthListLoop_closed sd ed hem1 hem2 hed1 _ sd.year sd.month
      hm1 hm2 rfl
  have hlen : (createMonthList sd ed hm1 hm2).length =
      12 * ed.year + ed.month + 1 - (12 * sd.year + sd.month) := by
    rw [hL, List.length_map, List.length_range]
  have helem : ∀ i,
      i < 12 * ed.year + ed.month + 1 - (12 * sd.year + sd.month) →
      (createMonthList sd ed hm1 hm2)[i]? =
        some (segAt sd ed (12 * sd.year + sd.month + i)) := by
    intro i hi
    rw [hL, List.getElem?_map, List.getElem?_range hi]
    rfl
  have hnone : ∀ i,
      12 * ed.year + ed.month + 1 - (12 * sd.year + sd.month) ≤ i →
      (createMonthList sd ed hm1 hm2)[i]? = none := by
    intro i hi
    apply List.getElem?_eq_none
    rw [hlen]
    omega
  refine ⟨hlen, ?_, ?_, ?_, ?_, ?_⟩
  · rw [helem 0 (by omega)]
    have e0 : idxMonth (12 * sd.year + sd.month) = sd.month := by
      unfold idxMonth; omega
    simp [segAt, e0]
  · rw [helem (12 * ed.year + ed.month - (12 * sd.year + sd.month))
      (by omega)]
    have harg : 12 * sd.year + sd.month +
        (12 * ed.year + ed.month - (12 * sd.year + sd.month)) =
        12 * ed.year + ed.month := by omega
    rw [harg]
    have eE : idxMonth (12 * ed.year + ed.month) = ed.month := by
      unfold idxMonth; omega
    simp [segAt, eE]
  · -- consecutive segments: zero gap, zero overlap
    intro i s1 s2 h1 h2
    by_cases hb : i + 1 <
        12 * ed.year + ed.month + 1 - (12 * sd.year + sd.month)
    · rw [helem i (by omega)] at h1
      rw [helem (i + 1) hb] at h2
      injection h1 with h1
      injection h2 with h2
      subst h1
      subst h2
      rw [show 12 * sd.year + sd.month + (i + 1) =
        12 * sd.year + sd.month + i + 1 from by omega]
      have ht1 : 1 ≤ 12 * sd.year + sd.month + i := by omega
      have hc1 : ¬ (idxMonth (12 * sd.year + sd.month + i + 1) =
          sd.month) := by
        unfold idxMonth; omega
      have hc2 : ¬ (idxMonth (12 * sd.year + sd.month + i) =
          ed.month) := by
        unfold idxMonth; omega
      have hs2 : (segAt sd ed (12 * sd.year + sd.month + i + 1)).start =
          ⟨idxYear (12 * sd.year + sd.month + i + 1),
           idxMonth (12 * sd.year + sd.month + i + 1), 1⟩ := by
        unfold segAt
        try dsimp only
        rw [if_neg hc1]
      have hs1 : (segAt sd ed (12 * sd.year + sd.month + i)).«end» =
          ⟨idxYear (12 * sd.year + sd.month + i),
           idxMonth (12 * sd.year + sd.month + i),
           daysInMonth (idxYear (12 * sd.year + sd.month + i))
             (idxMonth (12 * sd.year + sd.month + i))⟩ := by
        unfold segAt
        try dsimp only
        rw [if_neg hc2]
      rw [hs2, hs1, dateNextDay_monthEnd]
      by_cases h12 : idxMonth (12 * sd.year + sd.month + i) < 12
      · rw [if_pos h12]
        obtain ⟨ey1, em1⟩ := idx_succ_no_rollover _ ht1 h12
        rw [ey1, em1]
      · rw [if_neg h12]
        obtain ⟨ey1, em1⟩ := idx_succ_rollover _ ht1 h12
        rw [ey1, em1]
    · rw [hnone (i + 1) (by omega)] at h2
      exact absurd h2 (by simp)
  · -- no segment is inverted
    intro i s h
    by_cases hb : i <
        12 * ed.year + ed.month + 1 - (12 * sd.year + sd.month)
    · rw [helem i hb] at h
      injection h with h
      subst h
      obtain ⟨hmi1, hmi2⟩ := idxMonth_bounds (12 * sd.year + sd.month + i)
      by_cases hc1 : idxMonth (12 * sd.year + sd.month + i) = sd.month <;>
        by_cases hc2 : idxMonth (12 * sd.year + sd.month + i) = ed.month
      · simp only [segAt, if_pos hc1, if_pos hc2]
        exact hle
      · -- first segment (month number matches start), not the last
        have hi0 : i = 0 := by
          unfold idxMonth at hc1; omega
        have hyr : idxYear (12 * sd.year + sd.month + i) = sd.year := by
          unfold idxYear; omega
        simp only [segAt, if_pos hc1, if_neg hc2]
        rw [hyr, hc1]
        unfold dateLe
        try dsimp only
        right
        exact ⟨rfl, Or.inr ⟨rfl, hsd2⟩⟩
      · -- last segment (month number matches end), not the first
        have hilast : 12 * sd.year + sd.month + i =
            12 * ed.year + ed.month := by
          unfold idxMonth at hc2; omega
        have hyr : idxYear (12 * sd.year + sd.month + i) = ed.year := by
          unfold idxYear; omega
        simp only [segAt, if_neg hc1, if_pos hc2]
        rw [hyr, hc2]
        unfold dateLe
        try dsimp only
        right
        exact ⟨rfl, Or.inr ⟨rfl, hed1⟩⟩
      · -- interior segment
        have hdim := daysInMonth_pos
          (idxYear (12 * sd.year + sd.month + i))
          (idxMonth (12 * sd.year + sd.month + i)) hmi1 hmi2
        simp only [segAt, if_neg hc1, if_neg hc2]
        unfold dateLe
        try dsimp only
        right
        exact ⟨rfl, Or.inr ⟨rfl, hdim⟩⟩
    · rw [hnone i (by omega)] at h
      exact absurd h (by simp)
  · -- interior segments cover their whole calendar month
    intro i s hi0 hiN h
    rw [hlen] at hiN
    rw [helem i (by omega)] at h
    injection h with h
    subst h
    have hc1 : ¬ (idxMonth (12 * sd.year + sd.month + i) = sd.month) := by
      unfold idxMonth; omega
    have hc2 : ¬ (idxMonth (12 * sd.year + sd.month + i) = ed.month) := by
      unfold idxMonth; omega
    constructor
    · unfold segAt
      try dsimp only
      rw [if_neg hc1]
    · unfold segAt
      try dsimp only
      rw [if_neg hc2]

/-- Witness for the amended C1: the three-month range 2018-11-20 ..
2019-01-05 (crossing a year boundary). -/
theorem claim_C1_amended_witness :
    ((createMonthList ⟨2018, 11, 20⟩ ⟨2019, 1, 5⟩ (by decide)
        (by decide)).length =
        12 * 2019 + 1 + 1 - (12 * 2018 + 11) ∧
      ((createMonthList ⟨2018, 11, 20⟩ ⟨2019, 1, 5⟩ (by decide)
        (by decide))[0]?).map MonthSegment.start = some ⟨2018, 11, 20⟩ ∧
      ((createMonthList ⟨2018, 11, 20⟩ ⟨2019, 1, 5⟩ (by decide)
        (by decide))[12 * 2019 + 1 - (12 * 2018 + 11)]?).map
          MonthSegment.«end» = some ⟨2019, 1, 5⟩ ∧
      (∀ (i : Nat) (s1 s2 : MonthSegment),
        (createMonthList ⟨2018, 11, 20⟩ ⟨2019, 1, 5⟩ (by decide)
          (by decide))[i]? = some s1 →
        (createMonthList ⟨2018, 11, 20⟩ ⟨2019, 1, 5⟩ (by decide)
          (by decide))[i + 1]? = some s2 →
        s2.start = dateNextDay s1.«end») ∧
      (∀ (i : Nat) (s : MonthSegment),
        (createMonthList ⟨2018, 11, 20⟩ ⟨2019, 1, 5⟩ (by decide)
          (by decide))[i]? = some s →
        dateLe s.start s.«end») ∧
      (∀ (i : Nat) (s : MonthSegment), 0 < i →
        i + 1 < (createMonthList ⟨2018, 11, 20⟩ ⟨2019, 1, 5⟩ (by decide)
          (by decide)).length →
        (createMonthList ⟨2018, 11, 20⟩ ⟨2019, 1, 5⟩ (by decide)
          (by decide))[i]? = some s →
        s.start = ⟨idxYear (12 * 2018 + 11 + i),
                   idxMonth (12 * 2018 + 11 + i), 1⟩ ∧
        s.«end» = ⟨idxYear (12 * 2018 + 11 + i),
                   idxMonth (12 * 2018 + 11 + i),
                   daysInMonth (idxYear (12 * 2018 + 11 + i))
                     (idxMonth (12 * 2018 + 11 + i))⟩)) ∧
    12 * 2019 + 1 + 1 - (12 * 2018 + 11) = 3 :=
  ⟨claim_C1_amended _ _ (by decide) (by decide) (by decide) (by decide)
      (by decide) (by decide),
    by decide⟩
/-! ## Rows and Python dict operations.

A report row is a Python `dict` built by successive `row[k] = v`
assignments; it is embedded as an insertion-ordered association list.
Row values are strings, `None` (a tag lookup can yield `None`), or
datetimes (`lineItem/UsageStartDate`/`EndDate` store raw datetime
objects). -/

/-- A Python value stored in a row dict. -/
inductive PyVal where
  | str (s : String)
  | dt (t : DateTime)
  | pynone
  deriving Repr, DecidableEq

/-- A report row. -/
abbrev Row := List (String × PyVal)

/-- Python `row[k] = v` on an insertion-ordered dict: replace the value
if the key is present, else append the new binding. -/
def dictSet (row : Row) (k : String) (v : PyVal) : Row :=
  if row.any (fun p => p.1 == k) then
    row.map (fun p => if p.1 == k then (p.1, v) else p)
  else row ++ [(k, v)]

theorem lookup_map_set (row : Row) (k : String) (v : PyVal)
    (h : row.any (fun p => p.1 == k) = true) :
    List.lookup k (row.map (fun p => if p.1 == k then (p.1, v) else p)) =
      some v := by
  induction row with
  | nil => simp at h
  | cons a as ih =>
    obtain ⟨a1, a2⟩ := a
    by_cases ha : a1 = k
    · subst ha
      rw [List.map_cons]
      have hhead : (if ((a1, a2) : String × PyVal).1 == a1 then
          (((a1, a2) : String × PyVal).1, v) else (a1, a2)) = (a1, v) := by
        simp
      rw [hhead]
      simp [List.lookup]
    · have ha' : (a1 == k) = false := beq_false_of_ne ha
      have hk' : (k == a1) = false := beq_false_of_ne (Ne.symm ha)
      simp only [List.any_cons, ha', Bool.false_or] at h
      rw [List.map_cons]
      have hhead : (if ((a1, a2) : String × PyVal).1 == k then
          (((a1, a2) : String × PyVal).1, v) else (a1, a2)) = (a1, a2) := by
        simp [ha']
      rw [hhead]
      simp only [List.lookup, hk']
      exact ih h

theorem lookup_map_other (row : Row) (k : String) (v : PyVal)
    (k' : String) (h : k' ≠ k) :
    List.lookup k' (row.map (fun p => if p.1 == k then (p.1, v) else p)) =
      List.lookup k' row := by
  induction row with
  | nil => rfl
  | cons a as ih =>
    obtain ⟨a1, a2⟩ := a
    by_cases ha : a1 = k
    · subst ha
      have hk' : (k' == a1) = false := beq_false_of_ne h
      rw [List.map_cons]
      have hhead : (if ((a1, a2) : String × PyVal).1 == a1 then
          (((a1, a2) : String × PyVal).1, v) else (a1, a2)) = (a1, v) := by
        simp
      rw [hhead]
      simp only [List.lookup, hk']
      exact ih
    · have ha' : (a1 == k) = false := beq_false_of_ne ha
      rw [List.map_cons]
      have hhead : (if ((a1, a2) : String × PyVal).1 == k then
          (((a1, a2) : String × PyVal).1, v) else (a1, a2)) = (a1, a2) := by
        simp [ha']
      rw [hhead]
      simp only [List.lookup]
      cases hk : (k' == a1) with
      | true => rfl
      | false => exact ih

theorem lookup_append_single (row : Row) (k : String) (v : PyVal)
    (h : row.any (fun p => p.1 == k) = false) :
    List.lookup k (row ++ [(k, v)]) = some v := by
  induction row with
  | nil => simp [List.lookup]
  | cons a as ih =>
    obtain ⟨a1, a2⟩ := a
    simp only [List.any_cons, Bool.or_eq_false_iff] at h
    have hk' : (k == a1) = false := by
      cases hb : (k == a1) with
      | true =>
        rw [beq_iff_eq] at hb
        rw [hb] at h
        simp at h
      | false => rfl
    simp only [List.cons_append, List.lookup, hk']
    exact ih h.2

theorem lookup_append_other (row : Row) (k : String) (v : PyVal)
    (k' : String) (h : k' ≠ k) :
    List.lookup k' (row ++ [(k, v)]) = List.lookup k' row := by
  induction row with
  | nil =>
    have hk' : (k' == k) = false := beq_false_of_ne h
    simp [List.lookup, hk']
  | cons a as ih =>
    obtain ⟨a1, a2⟩ := a
    simp only [List.cons_append, List.lookup]
    cases hk : (k' == a1) with
    | true => rfl
    | false => exact ih

/-- `row[k] = v` makes `row[k]` read back `v`. -/
theorem dictSet_lookup_self (row : Row) (k : String) (v : PyVal) :
    List.lookup k (dictSet row k v) = some v := by
  unfold dictSet
  by_cases h : row.any (fun p => p.1 == k) = true
  · rw [if_pos h]
    exact lookup_map_set row k v h
  · rw [if_neg h]
    have hf : row.any (fun p => p.1 == k) = false := by
      cases hb : row.any (fun p => p.1 == k) with
      | true => exact absurd hb h
      | false => rfl
    exact lookup_append_single row k v hf

/-- `row[k] = v` leaves every other key's value unchanged. -/
theorem dictSet_lookup_other (row : Row) (k : String) (v : PyVal)
    (k' : String) (h : k' ≠ k) :
    List.lookup k' (dictSet row k v) = List.lookup k' row := by
  unfold dictSet
  split
  · exact lookup_map_other row k v k' h
  · exact lookup_append_other row k v k' h

/-! ## Finalizer: `_aws_finalize_report` (`nise/report.py`).

The source deep-copies the row list, draws one 9-digit invoice id, and
overwrites `row['bill/InvoiceId']` on every row of the copy.  The
random draw is the explicit `invoice_id` parameter; the deep copy is
the purity of the embedding (the input list is untouched). -/

/-- `_aws_finalize_report(data)` with the drawn `invoice_id` made
explicit. -/
def awsFinalizeReport (invoice_id : String) (data : List Row) : List Row :=
  data.map (fun row => dictSet row "bill/InvoiceId" (PyVal.str invoice_id))

/-- C5: the Finalizer returns one row per input row; every output row
carries the same single invoice id in `bill/InvoiceId`; every other
field of every row is unchanged from the corresponding input row; and
the input row list itself is untouched (the function is pure on a copy,
mirroring the source's `copy.deepcopy`). -/
theorem claim_C5_finalize (invoice_id : String) (data : List Row) :
    (awsFinalizeReport invoice_id data).length = data.length ∧
      (∀ (i : Nat) (row : Row),
        (awsFinalizeReport invoice_id data)[i]? = some row →
        List.lookup "bill/InvoiceId" row = some (PyVal.str invoice_id)) ∧
      (∀ (i : Nat) (row row0 : Row),
        (awsFinalizeReport invoice_id data)[i]? = some row →
        data[i]? = some row0 →
        ∀ k, k ≠ "bill/InvoiceId" →
          List.lookup k row = List.lookup k row0) := by
  refine ⟨List.length_map data _, ?_, ?_⟩
  · intro i row h
    unfold awsFinalizeReport at h
    rw [List.getElem?_map] at h
    cases h0 : data[i]? with
    | none => rw [h0] at h; simp at h
    | some row0 =>
      rw [h0] at h
      simp only [Option.map_some', Option.map_some, Option.some.injEq] at h
      subst h
      exact dictSet_lookup_self row0 _ _
  · intro i row row0 h h0 k hk
    unfold awsFinalizeReport at h
    rw [List.getElem?_map, h0] at h
    simp only [Option.map_some', Option.map_some, Option.some.injEq] at h
    subst h
    exact dictSet_lookup_other row0 _ _ k hk

/-- Witness for C5 at a concrete two-row input. -/
theorem claim_C5_finalize_witness :
    (awsFinalizeReport "123456789"
        [[("bill/InvoiceId", PyVal.str ""), ("x", PyVal.str "a")],
         [("bill/InvoiceId", PyVal.str ""), ("x", PyVal.str "b")]]).length =
      ([[("bill/InvoiceId", PyVal.str ""), ("x", PyVal.str "a")],
        [("bill/InvoiceId", PyVal.str ""), ("x", PyVal.str "b")]] :
          List Row).length ∧
      (∀ (i : Nat) (row : Row),
        (awsFinalizeReport "123456789"
          [[("bill/InvoiceId", PyVal.str ""), ("x", PyVal.str "a")],
           [("bill/InvoiceId", PyVal.str ""), ("x", PyVal.str "b")]])[i]? =
          some row →
        List.lookup "bill/InvoiceId" row = some (PyVal.str "123456789")) ∧
      (∀ (i : Nat) (row row0 : Row),
        (awsFinalizeReport "123456789"
          [[("bill/InvoiceId", PyVal.str ""), ("x", PyVal.str "a")],
           [("bill/InvoiceId", PyVal.str ""), ("x", PyVal.str "b")]])[i]? =
          some row →
        ([[("bill/InvoiceId", PyVal.str ""), ("x", PyVal.str "a")],
          [("bill/InvoiceId", PyVal.str ""), ("x", PyVal.str "b")]] :
            List Row)[i]? = some row0 →
        ∀ k, k ≠ "bill/InvoiceId" →
          List.lookup k row = List.lookup k row0) :=
  claim_C5_finalize "123456789" _

/-! ## AWS column schema (`nise/generators/aws/aws_generator.py`).

In the Python source, `PRICING_COLS` is written as
`('pricing/LeaseContractLength', 'pricing/OfferingClass'`
`'pricing/PurchaseOption', ...)`: the missing comma makes Python fuse
the two adjacent string literals into the single column name
`'pricing/OfferingClasspricing/PurchaseOption'`.  The embedding keeps
the fused literal. -/

def IDENTITY_COLS : List String :=
  ["identity/LineItemId", "identity/TimeInterval"]

def BILL_COLS : List String :=
  ["bill/InvoiceId", "bill/BillingEntity", "bill/BillType",
   "bill/PayerAccountId", "bill/BillingPeriodStartDate",
   "bill/BillingPeriodEndDate"]

def LINE_ITEM_COLS : List String :=
  ["lineItem/UsageAccountId",
   "lineItem/LineItemType", "lineItem/UsageStartDate",
   "lineItem/UsageEndDate", "lineItem/ProductCode",
   "lineItem/UsageType", "lineItem/Operation",
   "lineItem/AvailabilityZone", "lineItem/ResourceId",
   "lineItem/UsageAmount", "lineItem/NormalizationFactor",
   "lineItem/NormalizedUsageAmount", "lineItem/CurrencyCode",
   "lineItem/UnblendedRate", "lineItem/UnblendedCost",
   "lineItem/BlendedRate", "lineItem/BlendedCost",
   "lineItem/LineItemDescription", "lineItem/TaxType"]

def PRODUCT_COLS : List String :=
  ["product/ProductName", "product/accountAssistance",
   "product/architecturalReview", "product/architectureSupport",
   "product/availability", "product/bestPractices",
   "product/caseSeverityresponseTimes", "product/clockSpeed",
   "product/comments", "product/contentType",
   "product/currentGeneration",
   "product/customerServiceAndCommunities",
   "product/databaseEngine", "product/dedicatedEbsThroughput",
   "product/deploymentOption", "product/description",
   "product/directorySize", "product/directoryType",
   "product/directoryTypeDescription", "product/durability",
   "product/ebsOptimized", "product/ecu", "product/endpointType",
   "product/engineCode", "product/enhancedNetworkingSupported",
   "product/feeCode", "product/feeDescription",
   "product/fromLocation", "product/fromLocationType",
   "product/group", "product/groupDescription",
   "product/includedServices", "product/instanceFamily",
   "product/instanceType", "product/isshadow",
   "product/iswebsocket", "product/launchSupport",
   "product/licenseModel", "product/location",
   "product/locationType", "product/maxIopsBurstPerformance",
   "product/maxIopsvolume", "product/maxThroughputvolume",
   "product/maxVolumeSize", "product/memory", "product/memoryGib",
   "product/messageDeliveryFrequency",
   "product/messageDeliveryOrder", "product/minVolumeSize",
   "product/networkPerformance", "product/operatingSystem",
   "product/operation", "product/operationsSupport",
   "product/origin", "product/physicalProcessor",
   "product/preInstalledSw", "product/proactiveGuidance",
   "product/processorArchitecture", "product/processorFeatures",
   "product/productFamily", "product/programmaticCaseManagement",
   "product/protocol", "product/provisioned", "product/queueType",
   "product/recipient", "product/region", "product/requestDescription",
   "product/requestType", "product/resourceEndpoint",
   "product/routingTarget", "product/routingType",
   "product/servicecode", "product/sku", "product/softwareType",
   "product/storage", "product/storageClass",
   "product/storageMedia", "product/storageType",
   "product/technicalSupport", "product/tenancy",
   "product/thirdpartySoftwareSupport", "product/toLocation",
   "product/toLocationType", "product/training",
   "product/transferType", "product/usagetype", "product/vcpu",
   "product/version", "product/virtualInterfaceType",
   "product/volumeType", "product/whoCanOpenCases"]

/-- `PRICING_COLS`, with the two adjacent Python string literals
`'pricing/OfferingClass' 'pricing/PurchaseOption'` fused by implicit
concatenation. -/
def PRICING_COLS : List String :=
  ["pricing/LeaseContractLength",
   "pricing/OfferingClasspricing/PurchaseOption",
   "pricing/publicOnDemandCost",
   "pricing/publicOnDemandRate", "pricing/term", "pricing/unit"]

def RESERVE_COLS : List String :=
  ["reservation/AvailabilityZone",
   "reservation/NormalizedUnitsPerReservation",
   "reservation/NumberOfReservations",
   "reservation/ReservationARN",
   "reservation/TotalReservedNormalizedUnits",
   "reservation/TotalReservedUnits",
   "reservation/UnitsPerReservation"]

def RESOURCE_TAG_COLS : List String :=
  ["resourceTags/user:environment",
   "resourceTags/user:version"]

def AWS_COLUMNS : List String :=
  IDENTITY_COLS ++ BILL_COLS ++ LINE_ITEM_COLS ++
    PRODUCT_COLS ++ PRICING_COLS ++ RESERVE_COLS ++ RESOURCE_TAG_COLS

/-- C10: the AWS column schema contains the single fused column
`pricing/OfferingClasspricing/PurchaseOption` (two names joined by
Python's implicit concatenation of adjacent string literals) and
contains neither `pricing/OfferingClass` nor `pricing/PurchaseOption`
as separate columns. -/
theorem claim_C10_fused_pricing_column :
    "pricing/OfferingClasspricing/PurchaseOption" ∈ AWS_COLUMNS ∧
      "pricing/OfferingClass" ∉ AWS_COLUMNS ∧
      "pricing/PurchaseOption" ∉ AWS_COLUMNS := by
  refine ⟨?_, ?_, ?_⟩ <;> decide

/-! ## `AbstractGenerator.next_month` (`nise/generators/generator.py`).

`next_month` goes to the first of the month, adds
`datetime.timedelta(days=32)` (guaranteed to land in the next month),
and takes `replace(day=1)` of the result. -/

/-- `t + datetime.timedelta(days=1)`. -/
def nextDay (t : DateTime) : DateTime :=
  if t.day < daysInMonth t.year t.month then { t with day := t.day + 1 }
  else if t.month < 12 then { t with day := 1, month := t.month + 1 }
  else { t with day := 1, month := 1, year := t.year + 1 }

/-- `t + datetime.timedelta(days=n)` as `n` single-day steps. -/
def addDays : Nat → DateTime → DateTime
  | 0, t => t
  | n + 1, t => addDays n (nextDay t)

/-- `AbstractGenerator.next_month(in_date)`. -/
def next_month (in_date : DateTime) : DateTime :=
  let dt_first := { in_date with day := 1 }
  let dt_up_month := addDays 32 dt_first
  { dt_up_month with day := 1 }

theorem addDays_one (t : DateTime) : addDays 1 t = nextDay t := rfl

theorem addDays_add (a b : Nat) (t : DateTime) :
    addDays (a + b) t = addDays b (addDays a t) := by
  induction a generalizing t with
  | zero => simp [addDays]
  | succ a ih =>
    have h1 : a + 1 + b = (a + b) + 1 := by omega
    rw [h1]
    show addDays (a + b) (nextDay t) = addDays b (addDays (a + 1) t)
    rw [ih (nextDay t)]
    rfl

theorem addDays_within : ∀ (n : Nat) (t : DateTime),
    t.day + n ≤ daysInMonth t.year t.month →
    addDays n t = { t with day := t.day + n } := by
  intro n
  induction n with
  | zero => intro t h; rfl
  | succ n ih =>
    intro t h
    show addDays n (nextDay t) = _
    have hlt : t.day < daysInMonth t.year t.month := by omega
    have hnd : nextDay t = { t with day := t.day + 1 } := by
      unfold nextDay
      rw [if_pos hlt]
    rw [hnd]
    rw [ih { t with day := t.day + 1 } (by dsimp only; omega)]
    have harith : t.day + 1 + n = t.day + (n + 1) := by omega
    dsimp only
    rw [harith]

theorem daysInMonth_ge28 (y m : Nat) (h1 : 1 ≤ m) (h2 : m ≤ 12) :
    28 ≤ daysInMonth y m := by
  interval_cases m <;> simp only [daysInMonth] <;> (try split) <;> omega

theorem nextDay_monthEnd (t : DateTime)
    (hd : t.day = daysInMonth t.year t.month) :
    nextDay t = if t.month < 12 then { t with day := 1, month := t.month + 1 }
                else { t with day := 1, month := 1, year := t.year + 1 } := by
  unfold nextDay
  rw [hd, if_neg (lt_irrefl _)]

/-- `next_month` really is "first day of the following month with the
time part of the input": the 32-day trick always lands in the next
month for every month length (28/29/30/31). -/
theorem next_month_spec (t : DateTime) (hm1 : 1 ≤ t.month)
    (hm2 : t.month ≤ 12) :
    next_month t =
      ⟨(if t.month = 12 then t.year + 1 else t.year),
       (if t.month = 12 then 1 else t.month + 1), 1,
       t.hour, t.minute, t.second⟩ := by
  have hstart : next_month t =
      { addDays 32 { t with day := 1 } with day := 1 } := rfl
  rw [hstart]
  have hD1 : 28 ≤ daysInMonth t.year t.month := daysInMonth_ge28 _ _ hm1 hm2
  have hD2 : daysInMonth t.year t.month ≤ 31 := daysInMonth_le _ _
  have h32 : (32 : Nat) = (daysInMonth t.year t.month - 1) +
      (1 + (32 - daysInMonth t.year t.month)) := by omega
  rw [h32, addDays_add]
  have hW1 : addDays (daysInMonth t.year t.month - 1) { t with day := 1 } =
      { t with day := 1 + (daysInMonth t.year t.month - 1) } :=
    addDays_within _ _ (by dsimp only; omega)
  rw [hW1]
  have hday : 1 + (daysInMonth t.year t.month - 1) =
      daysInMonth t.year t.month := by omega
  rw [hday, addDays_add 1 _, addDays_one]
  rw [nextDay_monthEnd { t with day := daysInMonth t.year t.month } rfl]
  by_cases hm : t.month < 12
  · rw [if_pos hm]
    have hge : 28 ≤ daysInMonth t.year (t.month + 1) :=
      daysInMonth_ge28 _ _ (by omega) (by omega)
    have hW2 : addDays (32 - daysInMonth t.year t.month)
        { t with day := 1, month := t.month + 1 } =
        { t with month := t.month + 1, day := 1 + (32 - daysInMonth t.year t.month) } :=
      addDays_within _ _ (by dsimp only; omega)
    rw [hW2]
    have hne : ¬ (t.month = 12) := by omega
    rw [if_neg hne, if_neg hne]
  · have hm12 : t.month = 12 := by omega
    rw [if_neg hm]
    have hge : 28 ≤ daysInMonth (t.year + 1) 1 :=
      daysInMonth_ge28 _ _ (by omega) (by omega)
    have hW2 : addDays (32 - daysInMonth t.year t.month)
        { t with day := 1, month := 1, year := t.year + 1 } =
        { t with year := t.year + 1, month := 1, day := 1 + (32 - daysInMonth t.year t.month) } :=
      addDays_within _ _ (by dsimp only; omega)
    rw [hW2]
    rw [if_pos hm12, if_pos hm12]

/-! ## Row Template Engine: `AWSGenerator._init_data_row`
(`nise/generators/aws/aws_generator.py`).

`AWSGenerator.timestamp` is `strftime('%Y-%m-%dT%H:%M:%SZ')`: each
numeric field zero-padded (year to four digits, the rest to two). -/

/-- Two-digit zero padding (strftime `%m`/`%d`/`%H`/`%M`/`%S`). -/
def pad2 (n : Nat) : String :=
  if n < 10 then "0" ++ toString n else toString n

/-- Four-digit zero padding (strftime `%Y`). -/
def pad4 (n : Nat) : String :=
  if n < 10 then "000" ++ toString n
  else if n < 100 then "00" ++ toString n
  else if n < 1000 then "0" ++ toString n
  else toString n

/-- `AWSGenerator.timestamp(in_date)`:
`in_date.strftime('%Y-%m-%dT%H:%M:%SZ')`. -/
def timestamp (in_date : DateTime) : String :=
  pad4 in_date.year ++ "-" ++ pad2 in_date.month ++ "-" ++
    pad2 in_date.day ++ "T" ++ pad2 in_date.hour ++ ":" ++
    pad2 in_date.minute ++ ":" ++ pad2 in_date.second ++ "Z"

/-- `AWSGenerator.time_interval(start, end)`. -/
def time_interval (start «end» : DateTime) : String :=
  timestamp start ++ "/" ++ timestamp «end»

/-- The loop body of `_init_data_row`: set the column to the empty
string, then overwrite the identity/bill columns the template fills
(`bill_begin`/`bill_end` are the billing-period datetimes computed
before the loop). -/
def initDataRowStep (sha1v payer_account : String)
    (start «end» bill_begin bill_end : DateTime) (row : Row)
    (column : String) : Row :=
  let row := dictSet row column (PyVal.str "")
  if column == "identity/LineItemId" then
    dictSet row column (PyVal.str sha1v)
  else if column == "identity/TimeInterval" then
    dictSet row column (PyVal.str (time_interval start «end»))
  else if column == "bill/BillingEntity" then
    dictSet row column (PyVal.str "AWS")
  else if column == "bill/BillType" then
    dictSet row column (PyVal.str "Anniversary")
  else if column == "bill/PayerAccountId" then
    dictSet row column (PyVal.str payer_account)
  else if column == "bill/BillingPeriodStartDate" then
    dictSet row column (PyVal.str (timestamp bill_begin))
  else if column == "bill/BillingPeriodEndDate" then
    dictSet row column (PyVal.str (timestamp bill_end))
  else row

/-- `AWSGenerator._init_data_row(start, end)`.  The fresh
`fake.sha1()` draw is the explicit `sha1v` parameter; `payer_account`
is construction-time state. -/
def initDataRow (sha1v payer_account : String) (start «end» : DateTime) :
    Row :=
  let bill_begin : DateTime :=
    { start with second := 0, minute := 0, hour := 0, day := 1 }
  let bill_end := next_month bill_begin
  AWS_COLUMNS.foldl
    (initDataRowStep sha1v payer_account start «end» bill_begin bill_end)
    []

/-- The value `_init_data_row` leaves under column `c` (per-column
closed form of the loop body, proved against it in
`initDataRowStep_spec`). -/
def initRowVal (sha1v payer_account : String)
    (start «end» bill_begin bill_end : DateTime) (c : String) : PyVal :=
  if c == "identity/LineItemId" then PyVal.str sha1v
  else if c == "identity/TimeInterval" then
    PyVal.str (time_interval start «end»)
  else if c == "bill/BillingEntity" then PyVal.str "AWS"
  else if c == "bill/BillType" then PyVal.str "Anniversary"
  else if c == "bill/PayerAccountId" then PyVal.str payer_account
  else if c == "bill/BillingPeriodStartDate" then
    PyVal.str (timestamp bill_begin)
  else if c == "bill/BillingPeriodEndDate" then
    PyVal.str (timestamp bill_end)
  else PyVal.str ""

theorem dictSet_fresh (row : Row) (k : String) (v : PyVal)
    (h : row.any (fun p => p.1 == k) = false) :
    dictSet row k v = row ++ [(k, v)] := by
  unfold dictSet
  rw [if_neg]
  rw [h]
  simp

theorem map_set_append (row : Row) (k : String) (v v' : PyVal)
    (h : row.any (fun p => p.1 == k) = false) :
    (row ++ [(k, v)]).map (fun p => if p.1 == k then (p.1, v') else p) =
      row ++ [(k, v')] := by
  induction row with
  | nil => simp
  | cons a as ih =>
    simp only [List.any_cons, Bool.or_eq_false_iff] at h
    simp only [List.cons_append, List.map_cons, h.1, Bool.false_eq_true,
      if_false]
    rw [ih h.2]

theorem dictSet_replace_last (row : Row) (k : String) (v v' : PyVal)
    (h : row.any (fun p => p.1 == k) = false) :
    dictSet (row ++ [(k, v)]) k v' = row ++ [(k, v')] := by
  unfold dictSet
  rw [if_pos]
  · exact map_set_append row k v v' h
  · simp

/-- On a row that does not yet contain `column`, the loop body appends
exactly one binding, whose value is `initRowVal`. -/
theorem initDataRowStep_spec (sha1v payer_account : String)
    (start «end» bill_begin bill_end : DateTime) (row : Row) (c : String)
    (h : row.any (fun p => p.1 == c) = false) :
    initDataRowStep sha1v payer_account start «end» bill_begin bill_end
        row c =
      row ++ [(c, initRowVal sha1v payer_account start «end» bill_begin
        bill_end c)] := by
  unfold initDataRowStep initRowVal
  rw [dictSet_fresh row c _ h]
  by_cases h1 : c == "identity/LineItemId"
  · rw [if_pos h1, if_pos h1, dictSet_replace_last row c _ _ h]
  · rw [if_neg h1, if_neg h1]
    by_cases h2 : c == "identity/TimeInterval"
    · rw [if_pos h2, if_pos h2, dictSet_replace_last row c _ _ h]
    · rw [if_neg h2, if_neg h2]
      by_cases h3 : c == "bill/BillingEntity"
      · rw [if_pos h3, if_pos h3, dictSet_replace_last row c _ _ h]
      · rw [if_neg h3, if_neg h3]
        by_cases h4 : c == "bill/BillType"
        · rw [if_pos h4, if_pos h4, dictSet_replace_last row c _ _ h]
        · rw [if_neg h4, if_neg h4]
          by_cases h5 : c == "bill/PayerAccountId"
          · rw [if_pos h5, if_pos h5, dictSet_replace_last row c _ _ h]
          · rw [if_neg h5, if_neg h5]
            by_cases h6 : c == "bill/BillingPeriodStartDate"
            · rw [if_pos h6, if_pos h6, dictSet_replace_last row c _ _ h]
            · rw [if_neg h6, if_neg h6]
              by_cases h7 : c == "bill/BillingPeriodEndDate"
              · rw [if_pos h7, if_pos h7,
                  dictSet_replace_last row c _ _ h]
              · rw [if_neg h7, if_neg h7]

/-- The `_init_data_row` loop over a duplicate-free column list starting
from a row containing none of the columns appends one binding per
column, in order. -/
theorem foldl_initDataRowStep (sha1v payer_account : String)
    (start «end» bill_begin bill_end : DateTime) :
    ∀ (cols : List String) (acc : Row), cols.Nodup →
      (∀ c ∈ cols, acc.any (fun p => p.1 == c) = false) →
      List.foldl
        (initDataRowStep sha1v payer_account start «end» bill_begin
          bill_end) acc cols =
        acc ++ cols.map (fun c =>
          (c, initRowVal sha1v payer_account start «end» bill_begin
            bill_end c)) := by
  intro cols
  induction cols with
  | nil => intro acc _ _; simp
  | cons c cs ih =>
    intro acc hnd hfresh
    rw [List.foldl_cons]
    rw [initDataRowStep_spec _ _ _ _ _ _ acc c
      (hfresh c (List.mem_cons_self c cs))]
    rw [ih _ (List.Nodup.of_cons hnd) ?fresh]
    · rw [List.map_cons, List.append_assoc]
      rfl
    case fresh =>
      intro c' hc'
      rw [List.any_append]
      rw [hfresh c' (List.mem_cons_of_mem c hc')]
      simp only [List.any_cons, List.any_nil, Bool.or_false,
        Bool.false_or]
      have hne : c ≠ c' := by
        intro heq
        subst heq
        exact (List.nodup_cons.mp hnd).1 hc'
      exact beq_false_of_ne hne

theorem lookup_map_keyed (l : List String) (g : String → PyVal)
    (c : String) (hc : c ∈ l) :
    List.lookup c (l.map (fun x => (x, g x))) = some (g c) := by
  induction l with
  | nil => cases hc
  | cons a as ih =>
    by_cases ha : c = a
    · subst ha
      simp [List.lookup]
    · have hk : (c == a) = false := beq_false_of_ne ha
      simp only [List.map_cons, List.lookup, hk]
      rcases List.mem_cons.mp hc with h | h
      · exact absurd h ha
      · exact ih h

set_option maxRecDepth 100000 in
set_option maxHeartbeats 4000000 in
theorem AWS_COLUMNS_nodup : AWS_COLUMNS.Nodup := by decide

/-- C8: for every row produced by `_init_data_row` from a window, the
key sequence is exactly the declared schema `AWS_COLUMNS` (so the key
set equals the schema), every column the template does not fill is the
empty string, the filled identity/bill columns hold their documented
values, `bill/BillingPeriodStartDate` is the first day of `start`'s
month with the time zeroed, and `bill/BillingPeriodEndDate` is the
first day of the following month — both rendered by `timestamp`, the
embedding of the fixed format `%Y-%m-%dT%H:%M:%SZ`. -/
theorem claim_C8_initDataRow (sha1v payer : String) (s e : DateTime)
    (hm1 : 1 ≤ s.month) (hm2 : s.month ≤ 12) :
    (initDataRow sha1v payer s e).map Prod.fst = AWS_COLUMNS ∧
      (∀ c, c ∈ AWS_COLUMNS →
        c ∉ ["identity/LineItemId", "identity/TimeInterval",
             "bill/BillingEntity", "bill/BillType", "bill/PayerAccountId",
             "bill/BillingPeriodStartDate", "bill/BillingPeriodEndDate"] →
        List.lookup c (initDataRow sha1v payer s e) =
          some (PyVal.str "")) ∧
      List.lookup "identity/LineItemId" (initDataRow sha1v payer s e) =
        some (PyVal.str sha1v) ∧
      List.lookup "identity/TimeInterval" (initDataRow sha1v payer s e) =
        some (PyVal.str (time_interval s e)) ∧
      List.lookup "bill/BillingEntity" (initDataRow sha1v payer s e) =
        some (PyVal.str "AWS") ∧
      List.lookup "bill/BillType" (initDataRow sha1v payer s e) =
        some (PyVal.str "Anniversary") ∧
      List.lookup "bill/PayerAccountId" (initDataRow sha1v payer s e) =
        some (PyVal.str payer) ∧
      List.lookup "bill/BillingPeriodStartDate"
          (initDataRow sha1v payer s e) =
        some (PyVal.str (timestamp ⟨s.year, s.month, 1, 0, 0, 0⟩)) ∧
      List.lookup "bill/BillingPeriodEndDate"
          (initDataRow sha1v payer s e) =
        some (PyVal.str (timestamp
          ⟨(if s.month = 12 then s.year + 1 else s.year),
           (if s.month = 12 then 1 else s.month + 1), 1, 0, 0, 0⟩)) := by
  have hb : next_month
      { s with second := 0, minute := 0, hour := 0, day := 1 } =
      ⟨(if s.month = 12 then s.year + 1 else s.year),
       (if s.month = 12 then 1 else s.month + 1), 1, 0, 0, 0⟩ :=
    next_month_spec _ hm1 hm2
  have hrow : initDataRow sha1v payer s e =
      AWS_COLUMNS.map (fun c =>
        (c, initRowVal sha1v payer s e ⟨s.year, s.month, 1, 0, 0, 0⟩
          ⟨(if s.month = 12 then s.year + 1 else s.year),
           (if s.month = 12 then 1 else s.month + 1), 1, 0, 0, 0⟩ c)) := by
    unfold initDataRow
    dsimp only
    rw [hb]
    rw [foldl_initDataRowStep sha1v payer s e _ _ AWS_COLUMNS []
      AWS_COLUMNS_nodup (fun c _ => rfl)]
    rw [List.nil_append]
  refine ⟨?_, ?_, ?_, ?_, ?_, ?_, ?_, ?_, ?_⟩
  · rw [hrow, List.map_map]
    exact List.map_id AWS_COLUMNS
  · intro c hc hns
    simp only [List.mem_cons, not_or, List.not_mem_nil] at hns
    obtain ⟨h1, h2, h3, h4, h5, h6, h7, -⟩ := hns
    rw [hrow, lookup_map_keyed _ _ c hc]
    unfold initRowVal
    rw [if_neg (by simp [beq_false_of_ne h1]),
      if_neg (by simp [beq_false_of_ne h2]),
      if_neg (by simp [beq_false_of_ne h3]),
      if_neg (by simp [beq_false_of_ne h4]),
      if_neg (by simp [beq_false_of_ne h5]),
      if_neg (by simp [beq_false_of_ne h6]),
      if_neg (by simp [beq_false_of_ne h7])]
  · rw [hrow, lookup_map_keyed _ _ _ (by decide)]
    rfl
  · rw [hrow, lookup_map_keyed _ _ _ (by decide)]
    rfl
  · rw [hrow, lookup_map_keyed _ _ _ (by decide)]
    rfl
  · rw [hrow, lookup_map_keyed _ _ _ (by decide)]
    rfl
  · rw [hrow, lookup_map_keyed _ _ _ (by decide)]
    rfl
  · rw [hrow, lookup_map_keyed _ _ _ (by decide)]
    rfl
  · rw [hrow, lookup_map_keyed _ _ _ (by decide)]
    rfl

/-- Witness for C8 at a concrete December window (exercising the year
rollover of the billing period), together with byte-for-byte renderings
of the two billing-period timestamps. -/
theorem claim_C8_initDataRow_witness :
    ((initDataRow "sha" "payer" ⟨2018, 12, 15, 3, 4, 5⟩
        ⟨2018, 12, 15, 4, 4, 5⟩).map Prod.fst = AWS_COLUMNS ∧
      (∀ c, c ∈ AWS_COLUMNS →
        c ∉ ["identity/LineItemId", "identity/TimeInterval",
             "bill/BillingEntity", "bill/BillType", "bill/PayerAccountId",
             "bill/BillingPeriodStartDate", "bill/BillingPeriodEndDate"] →
        List.lookup c (initDataRow "sha" "payer" ⟨2018, 12, 15, 3, 4, 5⟩
          ⟨2018, 12, 15, 4, 4, 5⟩) = some (PyVal.str "")) ∧
      List.lookup "identity/LineItemId" (initDataRow "sha" "payer"
          ⟨2018, 12, 15, 3, 4, 5⟩ ⟨2018, 12, 15, 4, 4, 5⟩) =
        some (PyVal.str "sha") ∧
      List.lookup "identity/TimeInterval" (initDataRow "sha" "payer"
          ⟨2018, 12, 15, 3, 4, 5⟩ ⟨2018, 12, 15, 4, 4, 5⟩) =
        some (PyVal.str (time_interval ⟨2018, 12, 15, 3, 4, 5⟩
          ⟨2018, 12, 15, 4, 4, 5⟩)) ∧
      List.lookup "bill/BillingEntity" (initDataRow "sha" "payer"
          ⟨2018, 12, 15, 3, 4, 5⟩ ⟨2018, 12, 15, 4, 4, 5⟩) =
        some (PyVal.str "AWS") ∧
      List.lookup "bill/BillType" (initDataRow "sha" "payer"
          ⟨2018, 12, 15, 3, 4, 5⟩ ⟨2018, 12, 15, 4, 4, 5⟩) =
        some (PyVal.str "Anniversary") ∧
      List.lookup "bill/PayerAccountId" (initDataRow "sha" "payer"
          ⟨2018, 12, 15, 3, 4, 5⟩ ⟨2018, 12, 15, 4, 4, 5⟩) =
        some (PyVal.str "payer") ∧
      List.lookup "bill/BillingPeriodStartDate" (initDataRow "sha" "payer"
          ⟨2018, 12, 15, 3, 4, 5⟩ ⟨2018, 12, 15, 4, 4, 5⟩) =
        some (PyVal.str (timestamp ⟨2018, 12, 1, 0, 0, 0⟩)) ∧
      List.lookup "bill/BillingPeriodEndDate" (initDataRow "sha" "payer"
          ⟨2018, 12, 15, 3, 4, 5⟩ ⟨2018, 12, 15, 4, 4, 5⟩) =
        some (PyVal.str (timestamp ⟨2019, 1, 1, 0, 0, 0⟩))) ∧
    timestamp ⟨2018, 12, 1, 0, 0, 0⟩ = "2018-12-01T00:00:00Z" ∧
    timestamp ⟨2019, 1, 1, 0, 0, 0⟩ = "2019-01-01T00:00:00Z" :=
  ⟨claim_C8_initDataRow "sha" "payer" ⟨2018, 12, 15, 3, 4, 5⟩
      ⟨2018, 12, 15, 4, 4, 5⟩ (by decide) (by decide),
    by decide, by decide⟩

/-! ## S3 Resource Generator (`nise/generators/aws/s3_generator.py`).

Floats (`uniform` draws, amounts, rates) are embedded as rationals;
Python's `str(x)` float rendering is abstracted by `toString` on `ℚ`
(no claim depends on the digit strings, only on value equality).
Random draws are an explicit oracle (`S3Rand`), with per-row streams
indexed by row number.

The source never initializes `self._tags` unless truthy tags were
supplied in `attributes`; the embedding therefore carries `_tags` as
`Option`, where `none` means the **attribute does not exist** and
reading it (as `_pick_tag`'s first line does) raises
`AttributeError`. -/

/-- `AWSGenerator.REGIONS`. -/
def REGIONS : List (String × String × String × String) :=
  [("US East (N. Virginia)", "us-east-1", "us-east-1a", "USE1-EBS"),
   ("US East (N. Virginia)", "us-east-1", "us-east-1b", "USE1-EBS"),
   ("US West (N. California)", "us-west-1", "us-west-1a", "USW1-EBS"),
   ("US West (N. California)", "us-west-1", "us-west-1b", "USW1-EBS"),
   ("US West (Oregon)", "us-west-2", "us-west-2a", "USW2-EBS"),
   ("US West (Oregon)", "us-west-2", "us-west-2b", "USW2-EBS")]

/-- The attribute keys the S3 generator consumes (an `attributes` dict;
`none` fields are absent keys).  `start_date`/`end_date` keys are
consumed by the orchestrator, not the generator, and are omitted. -/
structure S3Attrs where
  amount : Option ℚ := none
  rate : Option ℚ := none
  product_sku : Option String := none
  tags : Option (List (String × String)) := none
  deriving Repr

/-- Oracle for every random draw of one `S3Generator` run. -/
structure S3Rand where
  amountDraw : ℚ
  rateDraw : ℚ
  skuDraw : String
  sha1 : Nat → String
  acctChoice : Nat → String
  ean8 : Nat → String
  regionChoice : Nat → Fin 6
  envChoice : Nat → String
  verChoice : Nat → String

/-- Instance state of an `S3Generator` after `__init__` (the fields
`_update_data`/`_pick_tag` read). -/
structure S3State where
  payer_account : String
  usage_accounts : List String
  attributes : Option S3Attrs
  _amount : ℚ
  _rate : ℚ
  _product_sku : String
  _attributes : Option S3Attrs
  _tags : Option (List (String × String))

/-- `S3Generator.__init__`: random draws, then truthiness-guarded
attribute overrides (`if attributes.get('amount'): ...`); `_tags` is
assigned only when truthy tags are supplied, otherwise the attribute
is never created (`none`). -/
def s3Init (r : S3Rand) (payer_account : String)
    (usage_accounts : List String) (attributes : Option S3Attrs) :
    S3State :=
  let _amount := r.amountDraw
  let _rate := r.rateDraw
  let _product_sku := r.skuDraw
  match attributes with
  | none =>
    { payer_account, usage_accounts, attributes := none,
      _amount, _rate, _product_sku, _attributes := none, _tags := none }
  | some a =>
    let _amount := match a.amount with
      | some v => if v == 0 then _amount else v
      | none => _amount
    let _rate := match a.rate with
      | some v => if v == 0 then _rate else v
      | none => _rate
    let _product_sku := match a.product_sku with
      | some v => if v == "" then _product_sku else v
      | none => _product_sku
    let _tags : Option (List (String × String)) := match a.tags with
      | some ts => if ts.isEmpty then none else some ts
      | none => none
    { payer_account, usage_accounts, attributes := some a,
      _amount, _rate, _product_sku, _attributes := some a, _tags }

/-- `S3Generator._pick_tag(tag_key, options)`: reading `self._tags`
raises `AttributeError` when the attribute was never assigned;
otherwise the three-way policy of the source body.  `rchoice` is the
`random.choice(options)` draw. -/
def pick_tag (st : S3State) (tag_key : String) (options : List String)
    (rchoice : String) : Except String (Option String) :=
  match st._tags with
  | none =>
    .error "AttributeError: 'S3Generator' object has no attribute '_tags'"
  | some tags =>
    .ok (if tags.isEmpty = false then List.lookup tag_key tags
         else if st._attributes.isSome then none
         else some rchoice)

/-- `AWSGenerator._get_location`. -/
def get_location (st : S3State) (rregion : Fin 6) :
    String × String × String × String :=
  if st.attributes.isSome then
    ("US East (N. Virginia)", "us-east-1", "us-east-1a", "USE1-EBS")
  else REGIONS.get (Fin.cast (by rfl) rregion)

/-- `S3Generator._get_arn(avail_zone)`; `ean8v` is the `fake.ean8()`
draw. -/
def get_arn (st : S3State) (avail_zone ean8v : String) : String :=
  "arn:aws:ec2:" ++ avail_zone ++ ":" ++ st.payer_account ++
    ":snapshot/snap-" ++ ean8v

/-- Python `str()` of a rational (float rendering abstracted). -/
def ratStr (q : ℚ) : String := toString q

/-- A tag value stored into the row (`None` stays `None`). -/
def optVal : Option String → PyVal
  | some s => PyVal.str s
  | none => PyVal.pynone

/-- `S3Generator._update_data(row, start, end)` (including the
`_add_common_usage_info` call it starts with).  `rregion`, `ean8v`,
`racct`, `renv`, `rver` are the per-row random draws. -/
def s3UpdateData (st : S3State) (row : Row) (start «end» : DateTime)
    (rregion : Fin 6) (ean8v racct renv rver : String) :
    Except String Row :=
  let row := dictSet row "lineItem/UsageAccountId" (PyVal.str racct)
  let row := dictSet row "lineItem/LineItemType" (PyVal.str "Usage")
  let row := dictSet row "lineItem/UsageStartDate" (PyVal.dt start)
  let row := dictSet row "lineItem/UsageEndDate" (PyVal.dt «end»)
  let rate := st._rate
  let amount := st._amount
  let cost := amount * rate
  let loc := get_location st rregion
  let location := loc.1
  let aws_region := loc.2.1
  let avail_zone := loc.2.2.1
  let description :=
    "$" ++ ratStr rate ++ " per GB-Month of snapshot data stored - " ++
      location
  let amazon_resource_name := get_arn st avail_zone ean8v
  let row := dictSet row "lineItem/ProductCode" (PyVal.str "AmazonS3")
  let row := dictSet row "lineItem/UsageType" (PyVal.str "Requests-Tier2")
  let row := dictSet row "lineItem/Operation" (PyVal.str "GetObject")
  let row := dictSet row "lineItem/ResourceId"
    (PyVal.str amazon_resource_name)
  let row := dictSet row "lineItem/UsageAmount" (PyVal.str (ratStr amount))
  let row := dictSet row "lineItem/CurrencyCode" (PyVal.str "USD")
  let row := dictSet row "lineItem/UnblendedRate" (PyVal.str (ratStr rate))
  let row := dictSet row "lineItem/UnblendedCost" (PyVal.str (ratStr cost))
  let row := dictSet row "lineItem/BlendedRate" (PyVal.str (ratStr rate))
  let row := dictSet row "lineItem/BlendedCost" (PyVal.str (ratStr cost))
  let row := dictSet row "lineItem/LineItemDescription"
    (PyVal.str description)
  let row := dictSet row "product/ProductName"
    (PyVal.str "Amazon Simple Storage Service")
  let row := dictSet row "product/location" (PyVal.str location)
  let row := dictSet row "product/locationType" (PyVal.str "AWS Region")
  let row := dictSet row "product/productFamily"
    (PyVal.str "Storage Snapshot")
  let row := dictSet row "product/region" (PyVal.str aws_region)
  let row := dictSet row "product/servicecode" (PyVal.str "AmazonS3")
  let row := dictSet row "product/sku" (PyVal.str st._product_sku)
  let row := dictSet row "product/storageMedia" (PyVal.str "Amazon S3")
  let row := dictSet row "product/usagetype" (PyVal.str "Requests-Tier2")
  let row := dictSet row "pricing/publicOnDemandCost"
    (PyVal.str (ratStr cost))
  let row := dictSet row "pricing/publicOnDemandRate"
    (PyVal.str (ratStr rate))
  let row := dictSet row "pricing/term" (PyVal.str "OnDemand")
  let row := dictSet row "pricing/unit" (PyVal.str "GB-Mo")
  match pick_tag st "resourceTags/user:environment"
    ["dev", "ci", "qa", "stage", "prod"] renv with
  | .error m => .error m
  | .ok env =>
    let row := dictSet row "resourceTags/user:environment" (optVal env)
    match pick_tag st "resourceTags/user:version" ["alpha", "beta"] rver with
    | .error m => .error m
    | .ok ver => .ok (dictSet row "resourceTags/user:version" (optVal ver))

/-- `S3Generator.generate_data()`: build the hourly timeline
(`AbstractGenerator.__init__` may raise), then one row per window —
`_init_data_row` followed by `_update_data`. -/
def s3GenerateData (r : S3Rand) (payer_account : String)
    (usage_accounts : List String) (attributes : Option S3Attrs)
    (start_date end_date : DateTime) (hs : ValidDT start_date) :
    Except String (List Row) := do
  let hours ← setHours start_date end_date hs
  let st := s3Init r payer_account usage_accounts attributes
  hours.enum.mapM (fun p =>
    match p with
    | (i, hw) => do
      let row := initDataRow (r.sha1 i) payer_account hw.start hw.«end»
      s3UpdateData st row hw.start hw.«end» (r.regionChoice i) (r.ean8 i)
        (r.acctChoice i) (r.envChoice i) (r.verChoice i))

/-- A trivial concrete oracle, used to evaluate the generator at
concrete inputs. -/
def s3Rand0 : S3Rand :=
  { amountDraw := 1, rateDraw := 1, skuDraw := "RANDOMSKU000",
    sha1 := fun _ => "sha0", acctChoice := fun _ => "acct0",
    ean8 := fun _ => "11111111", regionChoice := fun _ => 0,
    envChoice := fun _ => "dev", verChoice := fun _ => "alpha" }

/-- C3 (code bug): `_pick_tag`'s own `elif`/`else` branches describe the
documented policy (attributes-without-tags → omit; no attributes →
sample), but `self._tags` is only ever assigned when truthy tags are
supplied, so on both of those branches the very first line
`if self._tags:` raises `AttributeError` instead.  Only the
explicit-tags branch works, returning the supplied value for the key. -/
theorem claim_C3_pick_tag :
    pick_tag (s3Init s3Rand0 "payer" ["acct"] none)
        "resourceTags/user:environment"
        ["dev", "ci", "qa", "stage", "prod"] "dev" =
      .error
        "AttributeError: 'S3Generator' object has no attribute '_tags'" ∧
    pick_tag (s3Init s3Rand0 "payer" ["acct"]
          (some { amount := some 100 }))
        "resourceTags/user:environment"
        ["dev", "ci", "qa", "stage", "prod"] "dev" =
      .error
        "AttributeError: 'S3Generator' object has no attribute '_tags'" ∧
    pick_tag (s3Init s3Rand0 "payer" ["acct"]
          (some { tags := some [("resourceTags/user:environment", "qe"),
                                ("resourceTags/user:version", "beta")] }))
        "resourceTags/user:environment"
        ["dev", "ci", "qa", "stage", "prod"] "dev" =
      .ok (some "qe") := by
  refine ⟨rfl, rfl, ?_⟩
  rfl

/-! ### Claim C4: determinism under fully-pinned attributes.

Even with `amount`, `rate`, `product_sku` and `tags` pinned, three
columns are still drawn from the random source on every row:
`identity/LineItemId` (`fake.sha1()`), `lineItem/UsageAccountId`
(`random.choice(usage_accounts)`), and `lineItem/ResourceId`
(`fake.ean8()` inside the ARN).  `maskRow` blanks exactly those three
columns; the amended claim is that two runs with identical pinned
attributes agree after masking. -/

/-- The columns whose values are random even under fully-pinned
attributes. -/
def randomCols : List String :=
  ["identity/LineItemId", "lineItem/UsageAccountId",
   "lineItem/ResourceId"]

/-- Blank the value of a randomized column. -/
def maskVal (k : String) (v : PyVal) : PyVal :=
  if k ∈ randomCols then PyVal.pynone else v

/-- Blank the randomized columns of a row. -/
def maskRow (row : Row) : Row :=
  row.map (fun p => (p.1, maskVal p.1 p.2))

theorem maskRow_any (row : Row) (k : String) :
    (maskRow row).any (fun p => p.1 == k) =
      row.any (fun p => p.1 == k) := by
  unfold maskRow
  induction row with
  | nil => rfl
  | cons a as ih => simp only [List.map_cons, List.any_cons, ih]

theorem maskRow_dictSet (row : Row) (k : String) (v : PyVal) :
    maskRow (dictSet row k v) = dictSet (maskRow row) k (maskVal k v) := by
  unfold dictSet
  rw [maskRow_any]
  split
  · unfold maskRow
    rw [List.map_map, List.map_map]
    apply List.map_congr_left
    intro p hp
    simp only [Function.comp_apply]
    by_cases hpk : (p.1 == k) = true
    · have hk : p.1 = k := by rwa [beq_iff_eq] at hpk
      rw [if_pos hpk]
      try dsimp only
      rw [if_pos hpk, hk]
    · rw [if_neg hpk]
      try dsimp only
      rw [if_neg hpk]
  · unfold maskRow
    rw [List.map_append]
    rfl

/-- Closed form of `_init_data_row` (no hypotheses: the billing-period
datetimes are carried unevaluated). -/
theorem initDataRow_eq_map (a p : String) (s e : DateTime) :
    initDataRow a p s e = AWS_COLUMNS.map (fun c =>
      (c, initRowVal a p s e
        { s with second := 0, minute := 0, hour := 0, day := 1 }
        (next_month { s with second := 0, minute := 0, hour := 0, day := 1 })
        c)) := by
  unfold initDataRow
  try dsimp only
  rw [foldl_initDataRowStep a p s e _ _ AWS_COLUMNS [] AWS_COLUMNS_nodup
    (fun c _ => rfl), List.nil_append]

/-- The masked template row does not depend on the `sha1` draw. -/
theorem initDataRow_masked (a1 a2 p : String) (s e : DateTime) :
    maskRow (initDataRow a1 p s e) = maskRow (initDataRow a2 p s e) := by
  rw [initDataRow_eq_map, initDataRow_eq_map]
  unfold maskRow
  rw [List.map_map, List.map_map]
  apply List.map_congr_left
  intro c hc
  simp only [Function.comp_apply]
  by_cases h1 : (c == "identity/LineItemId") = true
  · have hk : c = "identity/LineItemId" := by rwa [beq_iff_eq] at h1
    subst hk
    rfl
  · unfold initRowVal
    rw [if_neg h1, if_neg h1]

theorem pick_tag_pinned (st : S3State) (ts : List (String × String))
    (hts : st._tags = some ts) (hne : ts.isEmpty = false)
    (tag_key : String) (options : List String) (rchoice : String) :
    pick_tag st tag_key options rchoice = .ok (List.lookup tag_key ts) := by
  unfold pick_tag
  rw [hts]
  dsimp only
  rw [hne]
  simp

theorem s3Init_pinned (r : S3Rand) (p : String) (accts : List String)
    (am rt : ℚ) (sk : String) (ts : List (String × String))
    (ham : (am == 0) = false) (hrt : (rt == 0) = false)
    (hsk : (sk == "") = false) (hts : ts.isEmpty = false) :
    s3Init r p accts (some ⟨some am, some rt, some sk, some ts⟩) =
      { payer_account := p, usage_accounts := accts,
        attributes := some ⟨some am, some rt, some sk, some ts⟩,
        _amount := am, _rate := rt, _product_sku := sk,
        _attributes := some ⟨some am, some rt, some sk, some ts⟩,
        _tags := some ts } := by
  unfold s3Init
  simp [ham, hrt, hsk, hts]

/-- Masked per-row output of `_update_data` is deterministic once the
instance state has pinned tags and any attributes: the per-row random
draws (`ean8`, account choice, tag `choice` fallbacks) only affect the
masked columns or are unreachable. -/
theorem s3UpdateData_masked (st : S3State) (ts : List (String × String))
    (hts : st._tags = some ts) (hne : ts.isEmpty = false)
    (hattr : st.attributes.isSome = true) (row1 row2 : Row)
    (hmask : maskRow row1 = maskRow row2) (s e : DateTime)
    (reg1 reg2 : Fin 6) (ean1 ean2 acct1 acct2 env1 env2 ver1 ver2 : String) :
    Except.map maskRow (s3UpdateData st row1 s e reg1 ean1 acct1 env1 ver1) =
      Except.map maskRow
        (s3UpdateData st row2 s e reg2 ean2 acct2 env2 ver2) := by
  have hloc1 : get_location st reg1 =
      ("US East (N. Virginia)", "us-east-1", "us-east-1a", "USE1-EBS") := by
    unfold get_location
    simp [hattr]
  have hloc2 : get_location st reg2 =
      ("US East (N. Virginia)", "us-east-1", "us-east-1a", "USE1-EBS") := by
    unfold get_location
    simp [hattr]
  unfold s3UpdateData
  rw [hloc1, hloc2]
  simp only [pick_tag_pinned st ts hts hne]
  dsimp only [Except.map]
  simp only [maskRow_dictSet]
  rw [hmask]
  rfl

/-- If two `Except.map g` images agree, the originals are both errors
with the same message or both successes with `g`-equal payloads. -/
theorem except_map_eq_cases {α β : Type} (g : α → β) (x y : Except String α)
    (h : Except.map g x = Except.map g y) :
    (∃ m, x = .error m ∧ y = .error m) ∨
      (∃ a b, x = .ok a ∧ y = .ok b ∧ g a = g b) := by
  cases x with
  | error m =>
    cases y with
    | error m' =>
      left
      simp only [Except.map] at h
      injection h with h
      exact ⟨m, rfl, by rw [h]⟩
    | ok b => simp [Except.map] at h
  | ok a =>
    cases y with
    | error m' => simp [Except.map] at h
    | ok b =>
      right
      simp only [Except.map] at h
      injection h with h
      exact ⟨a, b, rfl, rfl, h⟩

/-- Pointwise masked agreement lifts through `mapM`. -/
theorem mapM_masked {α : Type} (f1 f2 : α → Except String Row) :
    ∀ (l : List α),
      (∀ x ∈ l, Except.map maskRow (f1 x) = Except.map maskRow (f2 x)) →
      Except.map (List.map maskRow) (l.mapM f1) =
        Except.map (List.map maskRow) (l.mapM f2) := by
  intro l
  induction l with
  | nil => intro _; rfl
  | cons x xs ih =>
    intro h
    rw [List.mapM_cons, List.mapM_cons]
    have hx := h x (List.mem_cons_self x xs)
    have hxs := ih (fun y hy => h y (List.mem_cons_of_mem x hy))
    rcases except_map_eq_cases maskRow (f1 x) (f2 x) hx with
      ⟨m, e1, e2⟩ | ⟨a1, a2, o1, o2, hg⟩
    · rw [e1, e2]
      rfl
    · rw [o1, o2]
      show Except.map (List.map maskRow)
          (Except.bind (xs.mapM f1) (fun as => pure (a1 :: as))) =
        Except.map (List.map maskRow)
          (Except.bind (xs.mapM f2) (fun as => pure (a2 :: as)))
      rcases except_map_eq_cases (List.map maskRow) (xs.mapM f1)
        (xs.mapM f2) hxs with ⟨m, e1, e2⟩ | ⟨as1, as2, o1', o2', hg'⟩
      · rw [e1, e2]
        rfl
      · rw [o1', o2']
        show Except.ok (List.map maskRow (a1 :: as1)) =
          Except.ok (List.map maskRow (a2 :: as2))
        rw [List.map_cons, List.map_cons, hg, hg']

/-- C4 as amended: two runs of `S3Generator.generate_data` with
identical arguments and fully-pinned truthy attributes (amount, rate,
product_sku, tags) agree on every column of every row **except** the
three columns still drawn fresh from the random source on each row:
`identity/LineItemId`, `lineItem/UsageAccountId` and
`lineItem/ResourceId`.  (As stated over all columns the claim is false
— see the counterexample.) -/
theorem claim_C4_amended (r1 r2 : S3Rand) (payer : String)
    (accts : List String) (am rt : ℚ) (sk : String)
    (ts : List (String × String)) (ham : (am == 0) = false)
    (hrt : (rt == 0) = false) (hsk : (sk == "") = false)
    (hts : ts.isEmpty = false) (sd ed : DateTime) (hs : ValidDT sd) :
    Except.map (List.map maskRow)
        (s3GenerateData r1 payer accts
          (some ⟨some am, some rt, some sk, some ts⟩) sd ed hs) =
      Except.map (List.map maskRow)
        (s3GenerateData r2 payer accts
          (some ⟨some am, some rt, some sk, some ts⟩) sd ed hs) := by
  unfold s3GenerateData
  cases hset : setHours sd ed hs with
  | error m => simp [bind, Except.bind]
  | ok hours =>
    simp only [bind, Except.bind]
    rw [s3Init_pinned r1 payer accts am rt sk ts ham hrt hsk hts,
      s3Init_pinned r2 payer accts am rt sk ts ham hrt hsk hts]
    apply mapM_masked
    intro p hp
    obtain ⟨i, hw⟩ := p
    have hrowmask := initDataRow_masked (r1.sha1 i) (r2.sha1 i) payer
      hw.start hw.«end»
    refine s3UpdateData_masked _ ts ?_ hts ?_ _ _ hrowmask hw.start hw.«end»
      (r1.regionChoice i) (r2.regionChoice i) (r1.ean8 i) (r2.ean8 i)
      (r1.acctChoice i) (r2.acctChoice i) (r1.envChoice i)
      (r2.envChoice i) (r1.verChoice i) (r2.verChoice i)
    · rfl
    · rfl

/-- Witness for the amended C4 at concrete pinned attributes and two
oracles differing in their `ean8` stream. -/
theorem claim_C4_amended_witness :
    Except.map (List.map maskRow)
        (s3GenerateData s3Rand0 "payer" ["acct"]
          (some ⟨some 100, some 3, some "ABCDEFGHIJKL",
            some [("resourceTags/user:environment", "qe"),
                  ("resourceTags/user:version", "beta")]⟩)
          ⟨2018, 1, 1, 21, 0, 0⟩ ⟨2018, 1, 1, 22, 0, 0⟩ (by decide)) =
      Except.map (List.map maskRow)
        (s3GenerateData { s3Rand0 with ean8 := fun _ => "22222222" }
          "payer" ["acct"]
          (some ⟨some 100, some 3, some "ABCDEFGHIJKL",
            some [("resourceTags/user:environment", "qe"),
                  ("resourceTags/user:version", "beta")]⟩)
          ⟨2018, 1, 1, 21, 0, 0⟩ ⟨2018, 1, 1, 22, 0, 0⟩ (by decide)) :=
  claim_C4_amended s3Rand0 { s3Rand0 with ean8 := fun _ => "22222222" }
    "payer" ["acct"] 100 3 "ABCDEFGHIJKL"
    [("resourceTags/user:environment", "qe"),
     ("resourceTags/user:version", "beta")]
    (by decide) (by decide) (by decide) (by decide)
    ⟨2018, 1, 1, 21, 0, 0⟩ ⟨2018, 1, 1, 22, 0, 0⟩ (by decide)

set_option maxRecDepth 100000 in
set_option maxHeartbeats 4000000 in
/-- C4 (counterexample): with every `attributes` field pinned (amount,
rate, product_sku and tags all supplied), two runs of
`S3Generator.generate_data` over the same one-hour range still differ:
`_get_arn` draws `fake.ean8()` on every row, so `lineItem/ResourceId`
changes between runs (as do `identity/LineItemId` and
`lineItem/UsageAccountId`). -/
theorem claim_C4_counterexample :
    s3GenerateData s3Rand0 "payer" ["acct"]
        (some ⟨some 100, some 3, some "ABCDEFGHIJKL",
          some [("resourceTags/user:environment", "qe"),
                ("resourceTags/user:version", "beta")]⟩)
        ⟨2018, 1, 1, 22, 0, 0⟩ ⟨2018, 1, 1, 22, 30, 0⟩ (by decide) ≠
      s3GenerateData { s3Rand0 with ean8 := fun _ => "22222222" }
        "payer" ["acct"]
        (some ⟨some 100, some 3, some "ABCDEFGHIJKL",
          some [("resourceTags/user:environment", "qe"),
                ("resourceTags/user:version", "beta")]⟩)
        ⟨2018, 1, 1, 22, 0, 0⟩ ⟨2018, 1, 1, 22, 30, 0⟩ (by decide) := by
  have hset : ∀ (hp : ValidDT ⟨2018, 1, 1, 22, 0, 0⟩),
      setHours ⟨2018, 1, 1, 22, 0, 0⟩ ⟨2018, 1, 1, 22, 30, 0⟩ hp =
        .ok [⟨⟨2018, 1, 1, 22, 0, 0⟩, ⟨2018, 1, 1, 23, 0, 0⟩⟩] := by
    intro hp
    unfold setHours
    rw [if_neg (by decide), setHoursLoop_eq, if_pos (by decide),
      setHoursLoop_eq, if_neg (by decide)]
    rfl
  intro hcontra
  unfold s3GenerateData at hcontra
  rw [hset] at hcontra
  have hres := congrArg
    (fun x : Except String (List Row) =>
      List.lookup "lineItem/ResourceId"
        (List.getD ((Except.toOption x).getD []) 0 [])) hcontra
  exact absurd hres (by decide)

/-- A file-system effect trace: `nextId` numbers the temporary files in
order of creation, `created`/`removed` record the create and remove
calls in program order. -/
structure FsTrace where
  nextId : Nat
  created : List Nat
  removed : List Nat
  deriving Repr, DecidableEq

/-- Creating a temporary file returns a fresh id and logs it. -/
def fsCreate (t : FsTrace) : Nat × FsTrace :=
  (t.nextId,
    { nextId := t.nextId + 1, created := t.created ++ [t.nextId],
      removed := t.removed })

/-- `os.remove` on a temporary file logs the removal. -/
def fsRemove (t : FsTrace) (f : Nat) : FsTrace :=
  { t with removed := t.removed ++ [f] }

/-- The `insights_upload` delivery block of `ocp_create_report`
(report.py lines 339-349).  Each call that produces a temporary file
(`_write_manifest`, `create_temporary_copy`, `_tar_gzip_report`) draws a
fresh id; the two successive assignments to `temp_manifest` mirror
lines 339 and 342 of the source, the second shadowing the first. -/
def ocpDeliveryBlock (t : FsTrace) : FsTrace :=
  let p := fsCreate t
  let temp_manifest := p.1
  let t := p.2
  let p := fsCreate t
  let temp_usage_file := p.1
  let t := p.2
  let p := fsCreate t
  let temp_manifest := p.1
  let t := p.2
  let p := fsCreate t
  let temp_manifest_name := p.1
  let t := p.2
  let p := fsCreate t
  let temp_usage_zip := p.1
  let t := p.2
  let t := fsRemove t temp_usage_file
  let t := fsRemove t temp_manifest
  let t := fsRemove t temp_manifest_name
  let t := fsRemove t temp_usage_zip
  t

/-- C9 (code bug): on the fully successful path of the
`insights_upload` delivery block, five temporary files are created but
only four are removed: `temp_manifest` is assigned twice (report.py
lines 339 and 342), so the manifest file written by the first
`_write_manifest` call (id 0) is never deleted — cleanup fails even
when delivery succeeds, before the next month begins. -/
theorem claim_C9_temp_manifest_leak :
    (ocpDeliveryBlock ⟨0, [], []⟩).created = [0, 1, 2, 3, 4] ∧
    (ocpDeliveryBlock ⟨0, [], []⟩).removed = [1, 2, 3, 4] ∧
    0 ∈ (ocpDeliveryBlock ⟨0, [], []⟩).created ∧
    0 ∉ (ocpDeliveryBlock ⟨0, [], []⟩).removed := by
  refine ⟨rfl, rfl, by decide, by decide⟩

end Nise
